import Mathlib

/-!
Shallow embedding of the incremental push-style JSON parser of
`src/include/jsoncons/json_parser.hpp` (class `basic_json_parser<CharT>`),
together with proofs settling the frozen claims about it.

Modelling conventions:
* character elements (`CharT`) are modelled as `Nat` code units;
* the input span (`begin_input_`, `end_input_`, `p_`) is modelled by the
  list of not-yet-consumed code units (`input`);
* the event sink (`basic_json_input_handler`) is modelled by an event list
  accumulated in emission order;
* the error policy (`parse_error_handler::error(kind, ctx)`) is modelled as a
  pure function of the kind and the context line/column, returning `true` for
  *abort*; `fatal_error` always aborts and is modelled by writing the code;
* the out-parameter `std::error_code& ec` is a field `ec : Option _`;
* `uint64_t`/`int64_t`/`uint32_t`/`uint8_t` arithmetic is `Nat`/`Int`
  with explicit `% 2 ^ w` where wrap-around can occur;
* the string-to-double collaborator is a black box; a `double_value` event
  records the digit text, the sign flag and the precision byte passed to the
  handler, which determine the emitted double;
* the C++ main loop runs until the span is exhausted; the Lean `parse` takes
  fuel bounding the number of loop iterations (each iteration consumes a
  character except the bounded `cr`/`lf` bookkeeping steps), and the driver
  passes fuel `2 * length + 4`, which is always sufficient.
-/

namespace jsoncons

/-- States of the parser DFA, mirroring `enum class parse_state` of the source. -/
inductive parse_state
  | root
  | start
  | slash
  | slash_slash
  | slash_star
  | slash_star_star
  | expect_comma_or_end
  | object
  | expect_member_name_or_end
  | expect_member_name
  | expect_colon
  | expect_value_or_end
  | expect_value
  | array
  | string_u1
  | member_name
  | escape
  | escape_u1
  | escape_u2
  | escape_u3
  | escape_u4
  | escape_expect_surrogate_pair1
  | escape_expect_surrogate_pair2
  | escape_u6
  | escape_u7
  | escape_u8
  | escape_u9
  | minus
  | zero
  | integer
  | fraction1
  | fraction2
  | exp1
  | exp2
  | exp3
  | n
  | nu
  | nul
  | t
  | tr
  | tru
  | f
  | fa
  | fal
  | fals
  | cr
  | lf
  | done
  deriving DecidableEq

/-- Error kinds, mirroring `json_parser_errc` as used by the source. -/
inductive json_parser_errc
  | unexpected_eof
  | invalid_json_text
  | extra_character
  | max_depth_exceeded
  | single_quote
  | illegal_control_character
  | illegal_character_in_string
  | extra_comma
  | expected_name
  | expected_value
  | expected_colon
  | expected_comma_or_right_brace
  | expected_comma_or_right_bracket
  | unexpected_right_brace
  | unexpected_right_bracket
  | illegal_comment
  | illegal_escaped_character
  | invalid_hex_escape_sequence
  | expected_codepoint_surrogate_pair
  | invalid_number
  | leading_zero
  | invalid_value
  | over_long_utf8_sequence
  | unpaired_high_surrogate
  | expected_continuation_byte
  | illegal_surrogate_value
  | illegal_codepoint
  deriving DecidableEq

/-- Events delivered to the event sink (`basic_json_input_handler`).
A `double_value` event records the buffered digit text, the sign flag and the
precision byte handed to the handler; the black-box string-to-double
collaborator makes the emitted `double` a function of exactly these. -/
inductive json_event
  | begin_json
  | end_json
  | begin_object
  | end_object
  | begin_array
  | end_array
  | name (s : List Nat)
  | string_value (s : List Nat)
  | integer_value (i : Int)
  | uinteger_value (u : Nat)
  | double_value (digits : List Nat) (negative : Bool) (precision : Nat)
  | bool_value (b : Bool)
  | null_value
  deriving DecidableEq

/-- Conversion errors of the Unicode collaborator (`unicons::conv_errc`).
Modelled from the spec: the collaborator's error enumeration has at least
these tags; anything else is translated to `illegal_codepoint` anyway, so an
extra catch-all tag is not needed. -/
inductive conv_errc
  | over_long_utf8_sequence
  | unpaired_high_surrogate
  | expected_continuation_byte
  | illegal_surrogate_value
  | illegal_codepoint
  deriving DecidableEq

/-- The state owned by one `basic_json_parser` instance, plus the modelled
event sink output (`events`) and the caller's error slot (`ec`). -/
structure JState where
  state : parse_state
  state_stack : List parse_state
  cp : Nat
  cp2 : Nat
  string_buffer : List Nat
  is_negative : Bool
  line : Nat
  column : Nat
  nesting_depth : Int
  max_depth : Int
  precision : Nat
  input : List Nat
  events : List json_event
  ec : Option json_parser_errc
  deriving DecidableEq

/-- The error policy: `error(kind, context)`; the context exposes the
line and column numbers.  `true` means abort, `false` means continue. -/
abbrev Policy := json_parser_errc → Nat → Nat → Bool

/-- The default policy used in tests: abort on every recoverable error. -/
def abort_all : Policy := fun _ _ _ => true

/-- A policy that continues (with recovery) on every recoverable error. -/
def continue_all : Policy := fun _ _ _ => false

/-- Append one event to the sink output. -/
def emit (e : json_event) (s : JState) : JState :=
  { s with events := s.events ++ [e] }

/-- The events a computation `t` added beyond those already in `s`. -/
def new_events (s t : JState) : List json_event :=
  t.events.drop s.events.length

/-- `parent()`: the top of `state_stack_`.  The source asserts the stack is
nonempty; the `root` default is never reached from a properly seeded state. -/
def parent (s : JState) : parse_state :=
  s.state_stack.headD parse_state.root

/-- `push_state`. -/
def push_state (st : parse_state) (s : JState) : JState :=
  { s with state_stack := st :: s.state_stack }

/-- `pop_state`: returns the popped state and the shrunk stack.  The source
asserts nonemptiness; the empty case is unreachable from a seeded state. -/
def pop_state (s : JState) : parse_state × JState :=
  match s.state_stack with
  | [] => (parse_state.root, s)
  | a :: rest => (a, { s with state_stack := rest })

/-- A recoverable-error report site that honours the policy:
`if (err_handler_.error(k, *this)) { ec = k; return; }`. -/
def report (pol : Policy) (k : json_parser_errc) (s : JState) : JState :=
  if pol k s.line s.column then { s with ec := some k } else s

/-- An error site that calls the policy but ignores its result and always
writes the error code: `err_handler_.error(k, *this); ec = k; return;`. -/
def raise (pol : Policy) (k : json_parser_errc) (s : JState) : JState :=
  let _ := pol k s.line s.column
  { s with ec := some k }

/-- `err_handler_.fatal_error(k, *this); ec = k; return;` — always aborts. -/
def fatal_error (k : json_parser_errc) (s : JState) : JState :=
  { s with ec := some k }

/-- The control characters of `JSONCONS_ILLEGAL_CONTROL_CHARACTER`:
0x00–0x08, 0x0b, 0x0c, 0x0e–0x1f. -/
def is_illegal_ctrl (c : Nat) : Prop :=
  c ≤ 8 ∨ c = 11 ∨ c = 12 ∨ (14 ≤ c ∧ c ≤ 31)

instance (c : Nat) : Decidable (is_illegal_ctrl c) := by
  unfold is_illegal_ctrl; infer_instance

/-- `unicons::is_high_surrogate`.  Modelled from the spec: the repository's
unicons utility is not under `src/`. -/
def is_high_surrogate (cp : Nat) : Prop := 55296 ≤ cp ∧ cp ≤ 56319

instance (cp : Nat) : Decidable (is_high_surrogate cp) := by
  unfold is_high_surrogate; infer_instance

/-- Worker for `unicons_validate`: walks the byte list, returning the first
conversion error together with the index of the end of the last fully valid
scalar, or `none` with the total length. -/
def unicons_validate_aux : List Nat → Nat → Option conv_errc × Nat
  | [], i => (none, i)
  | c :: rest, i =>
    if c < 128 then unicons_validate_aux rest (i + 1)
    else if c < 192 then (some conv_errc.expected_continuation_byte, i)
    else if c < 194 then (some conv_errc.over_long_utf8_sequence, i)
    else if c < 224 then
      match rest with
      | c1 :: r =>
        if 128 ≤ c1 ∧ c1 < 192 then unicons_validate_aux r (i + 2)
        else (some conv_errc.expected_continuation_byte, i)
      | [] => (some conv_errc.expected_continuation_byte, i)
    else if c < 240 then
      match rest with
      | c1 :: c2 :: r =>
        if c = 224 ∧ c1 < 160 then (some conv_errc.over_long_utf8_sequence, i)
        else if c = 237 ∧ 160 ≤ c1 then (some conv_errc.illegal_surrogate_value, i)
        else if 128 ≤ c1 ∧ c1 < 192 ∧ 128 ≤ c2 ∧ c2 < 192 then
          unicons_validate_aux r (i + 3)
        else (some conv_errc.expected_continuation_byte, i)
      | _ => (some conv_errc.expected_continuation_byte, i)
    else if c < 245 then
      match rest with
      | c1 :: c2 :: c3 :: r =>
        if c = 240 ∧ c1 < 144 then (some conv_errc.over_long_utf8_sequence, i)
        else if c = 244 ∧ 144 ≤ c1 then (some conv_errc.illegal_codepoint, i)
        else if 128 ≤ c1 ∧ c1 < 192 ∧ 128 ≤ c2 ∧ c2 < 192 ∧ 128 ≤ c3 ∧ c3 < 192 then
          unicons_validate_aux r (i + 4)
        else (some conv_errc.expected_continuation_byte, i)
      | _ => (some conv_errc.expected_continuation_byte, i)
    else (some conv_errc.illegal_codepoint, i)

/-- `unicons::validate(begin, end)`.  Modelled from the spec: the Unicode
collaborator is not under `src/`; it validates a UTF-8 span and reports
`{ err, last_valid_iter }`.  The second component is the distance from the
start of the span to the last fully valid position. -/
def unicons_validate (span : List Nat) : Option conv_errc × Nat :=
  unicons_validate_aux span 0

/-- `unicons::convert` of a single code point into UTF-8 bytes appended to the
string buffer.  Modelled from the spec: the Unicode collaborator is not under
`src/`. -/
def unicons_convert (cp : Nat) : List Nat :=
  if cp < 128 then [cp]
  else if cp < 2048 then [192 + cp / 64, 128 + cp % 64]
  else if cp < 65536 then [224 + cp / 4096, 128 + cp / 64 % 64, 128 + cp % 64]
  else [240 + cp / 262144, 128 + cp / 4096 % 64, 128 + cp / 64 % 64, 128 + cp % 64]

/-- `std::numeric_limits<uint64_t>::max()`. -/
def u64_max : Nat := 2 ^ 64 - 1

/-- `max_value / 10` for `uint64_t`. -/
def u64_max_div_10 : Nat := u64_max / 10

/-- Loop of `try_string_to_uinteger`: `uint64_t` accumulation with the
overflow checks of the source; `x = s[i] - '0'` wraps modulo `2 ^ 64`. -/
def tsu_loop : Nat → List Nat → Option Nat
  | nacc, [] => some nacc
  | nacc, c :: rest =>
    let x := (c + 2 ^ 64 - 48) % 2 ^ 64
    if u64_max_div_10 < nacc then none
    else
      let n1 := nacc * 10 % 2 ^ 64
      if u64_max - x < n1 then none
      else tsu_loop ((n1 + x) % 2 ^ 64) rest

/-- `try_string_to_uinteger`: `some` of the accumulated value on success,
`none` where the source returns `false`. -/
def try_string_to_uinteger (s : List Nat) : Option Nat :=
  tsu_loop 0 s

/-- `std::numeric_limits<int64_t>::min()`. -/
def i64_min : Int := -(2 ^ 63)

/-- `min_value / 10` for `int64_t` (C++ division truncates toward zero). -/
def i64_min_div_10 : Int := Int.tdiv i64_min 10

/-- `std::numeric_limits<int64_t>::max()`. -/
def i64_max : Int := 2 ^ 63 - 1

/-- `max_value / 10` for `int64_t`. -/
def i64_max_div_10 : Int := Int.tdiv i64_max 10

/-- Negative branch loop of `try_string_to_integer`: accumulates downward with
the underflow checks of the source.  The guards ensure no `int64_t` overflow
occurs on any executed path, so plain `Int` is exact. -/
def tsi_neg_loop : Int → List Nat → Option Int
  | nacc, [] => some nacc
  | nacc, c :: rest =>
    let x : Int := (c : Int) - 48
    if nacc < i64_min_div_10 then none
    else
      let n1 := nacc * 10
      if n1 < i64_min + x then none
      else tsi_neg_loop (n1 - x) rest

/-- Positive branch loop of `try_string_to_integer`. -/
def tsi_pos_loop : Int → List Nat → Option Int
  | nacc, [] => some nacc
  | nacc, c :: rest =>
    let x : Int := (c : Int) - 48
    if i64_max_div_10 < nacc then none
    else
      let n1 := nacc * 10
      if i64_max - x < n1 then none
      else tsi_pos_loop (n1 + x) rest

/-- `try_string_to_integer`. -/
def try_string_to_integer (has_neg : Bool) (s : List Nat) : Option Int :=
  if has_neg then tsi_neg_loop 0 s else tsi_pos_loop 0 s

/-- `std::numeric_limits<int>::max()`, the default `max_depth_`. -/
def int_max : Int := 2147483647

/-- The state a freshly constructed parser is in. -/
def init_state : JState where
  state := parse_state.start
  state_stack := [parse_state.root]
  cp := 0
  cp2 := 0
  string_buffer := []
  is_negative := false
  line := 1
  column := 1
  nesting_depth := 0
  max_depth := int_max
  precision := 0
  input := []
  events := []
  ec := none

/-- `set_source(input, length)`: installs a new input span, no state reset. -/
def set_source (input : List Nat) (s : JState) : JState :=
  { s with input := input }

/-- `source_exhausted()`. -/
def source_exhausted (s : JState) : Prop := s.input = []

/-- `done()`. -/
def is_done (s : JState) : Prop := s.state = parse_state.done

/-- `max_nesting_depth(n)`: sets the cap, clamped to `int` maximum. -/
def max_nesting_depth (m : Nat) (s : JState) : JState :=
  { s with max_depth := Int.ofNat (min m 2147483647) }

/-- `reset()`: stack back to just the root sentinel, state `start`, position
1:1, depth 0; nothing else is touched. -/
def reset (s : JState) : JState :=
  { s with
    state_stack := [parse_state.root]
    state := parse_state.start
    line := 1
    column := 1
    nesting_depth := 0 }

/-- `skip_whitespace()` worker over the remaining input and current column. -/
def skip_whitespace_aux : List Nat → Nat → List Nat × Nat
  | [], col => ([], col)
  | c :: rest, col =>
    if c = 32 ∨ c = 9 then skip_whitespace_aux rest (col + 1)
    else (c :: rest, col)

/-- `skip_whitespace()`. -/
def skip_whitespace (s : JState) : JState :=
  let r := skip_whitespace_aux s.input s.column
  { s with input := r.1, column := r.2 }

/-- `do_begin_object`. -/
def do_begin_object (pol : Policy) (s : JState) : JState :=
  let s := { s with nesting_depth := s.nesting_depth + 1 }
  if s.nesting_depth ≥ s.max_depth then
    let s1 := report pol json_parser_errc.max_depth_exceeded s
    if s1.ec.isSome then s1
    else
      emit json_event.begin_object
        { (push_state parse_state.object s1) with state := parse_state.expect_member_name_or_end }
  else
    emit json_event.begin_object
      { (push_state parse_state.object s) with state := parse_state.expect_member_name_or_end }

/-- `do_end_object`. -/
def do_end_object (pol : Policy) (s : JState) : JState :=
  let _ := pol
  let s := { s with nesting_depth := s.nesting_depth - 1 }
  let p := pop_state s
  let s := { p.2 with state := p.1 }
  if s.state = parse_state.object then
    let s := emit json_event.end_object s
    if parent s = parse_state.root then
      emit json_event.end_json { s with state := parse_state.done }
    else
      { s with state := parse_state.expect_comma_or_end }
  else if s.state = parse_state.array then
    fatal_error json_parser_errc.expected_comma_or_right_bracket s
  else
    fatal_error json_parser_errc.unexpected_right_brace s

/-- `do_begin_array`. -/
def do_begin_array (pol : Policy) (s : JState) : JState :=
  let s := { s with nesting_depth := s.nesting_depth + 1 }
  if s.nesting_depth ≥ s.max_depth then
    let s1 := report pol json_parser_errc.max_depth_exceeded s
    if s1.ec.isSome then s1
    else
      emit json_event.begin_array
        { (push_state parse_state.array s1) with state := parse_state.expect_value_or_end }
  else
    emit json_event.begin_array
      { (push_state parse_state.array s) with state := parse_state.expect_value_or_end }

/-- `do_end_array`. -/
def do_end_array (pol : Policy) (s : JState) : JState :=
  let _ := pol
  let s := { s with nesting_depth := s.nesting_depth - 1 }
  let p := pop_state s
  let s := { p.2 with state := p.1 }
  if s.state = parse_state.array then
    let s := emit json_event.end_array s
    if parent s = parse_state.root then
      emit json_event.end_json { s with state := parse_state.done }
    else
      { s with state := parse_state.expect_comma_or_end }
  else if s.state = parse_state.object then
    fatal_error json_parser_errc.expected_comma_or_right_brace s
  else
    fatal_error json_parser_errc.unexpected_right_bracket s

/-- `begin_member_or_element`. -/
def begin_member_or_element (pol : Policy) (s : JState) : JState :=
  match parent s with
  | parse_state.object => { s with state := parse_state.expect_member_name }
  | parse_state.array => { s with state := parse_state.expect_value }
  | parse_state.root => s
  | _ => report pol json_parser_errc.invalid_json_text s

/-- `end_integer_value`: converts the buffered digits per `is_negative_`,
emits the numeric event, performs the post-value transition, then clears the
number buffers (except on the aborting default branch, as in the source).
The string-to-double collaborator is total in the model, so the
`invalid_number` catch branch is unreachable here. -/
def end_integer_value (pol : Policy) (s : JState) : JState :=
  let s1 :=
    if s.is_negative then
      match try_string_to_integer true s.string_buffer with
      | some d => emit (json_event.integer_value d) s
      | none =>
        emit (json_event.double_value s.string_buffer s.is_negative
          (s.string_buffer.length % 256)) s
    else
      match try_string_to_uinteger s.string_buffer with
      | some d => emit (json_event.uinteger_value d) s
      | none =>
        emit (json_event.double_value s.string_buffer s.is_negative
          (s.string_buffer.length % 256)) s
  match parent s1 with
  | parse_state.array =>
    { s1 with state := parse_state.expect_comma_or_end, string_buffer := [], is_negative := false }
  | parse_state.object =>
    { s1 with state := parse_state.expect_comma_or_end, string_buffer := [], is_negative := false }
  | parse_state.root =>
    let s2 := emit json_event.end_json { s1 with state := parse_state.done }
    { s2 with string_buffer := [], is_negative := false }
  | _ =>
    let s2 := report pol json_parser_errc.invalid_json_text s1
    if s2.ec.isSome then s2
    else { s2 with string_buffer := [], is_negative := false }

/-- `end_fraction_value`: emits the double (text, sign and precision byte
determine it), clears the buffers, then does the post-value transition.
The string-to-double collaborator is total in the model, so the
`invalid_number` catch branch is unreachable here. -/
def end_fraction_value (pol : Policy) (s : JState) : JState :=
  let s1 := emit (json_event.double_value s.string_buffer s.is_negative (s.precision % 256)) s
  let s2 := { s1 with string_buffer := [], is_negative := false }
  match parent s2 with
  | parse_state.array => { s2 with state := parse_state.expect_comma_or_end }
  | parse_state.object => { s2 with state := parse_state.expect_comma_or_end }
  | parse_state.root => emit json_event.end_json { s2 with state := parse_state.done }
  | _ => report pol json_parser_errc.invalid_json_text s2

/-- `end_string_value(s, length)` with the string contents passed explicitly. -/
def end_string_value (pol : Policy) (content : List Nat) (s : JState) : JState :=
  match parent s with
  | parse_state.member_name =>
    let s1 := emit (json_event.name content) s
    let p := pop_state s1
    { p.2 with state := parse_state.expect_colon }
  | parse_state.object =>
    { (emit (json_event.string_value content) s) with state := parse_state.expect_comma_or_end }
  | parse_state.array =>
    { (emit (json_event.string_value content) s) with state := parse_state.expect_comma_or_end }
  | parse_state.root =>
    let s1 := emit (json_event.string_value content) s
    emit json_event.end_json { s1 with state := parse_state.done }
  | _ => report pol json_parser_errc.invalid_json_text s

/-- `translate_conv_errc`. -/
def translate_conv_errc (pol : Policy) (e : conv_errc) (s : JState) : JState :=
  match e with
  | conv_errc.over_long_utf8_sequence => report pol json_parser_errc.over_long_utf8_sequence s
  | conv_errc.unpaired_high_surrogate => report pol json_parser_errc.unpaired_high_surrogate s
  | conv_errc.expected_continuation_byte =>
    report pol json_parser_errc.expected_continuation_byte s
  | conv_errc.illegal_surrogate_value => report pol json_parser_errc.illegal_surrogate_value s
  | conv_errc.illegal_codepoint => report pol json_parser_errc.illegal_codepoint s

/-- `append_to_codepoint`: `uint32_t` accumulation of one hex digit.  The
non-hex branch is unreachable from `append_codepoint`/`append_second_codepoint`,
which filter first; it is transcribed anyway. -/
def append_to_codepoint (pol : Policy) (cp c : Nat) (s : JState) : Nat × JState :=
  let cp := cp * 16 % 2 ^ 32
  if 48 ≤ c ∧ c ≤ 57 then ((cp + (c - 48)) % 2 ^ 32, s)
  else if 97 ≤ c ∧ c ≤ 102 then ((cp + (c - 97 + 10)) % 2 ^ 32, s)
  else if 65 ≤ c ∧ c ≤ 70 then ((cp + (c - 65 + 10)) % 2 ^ 32, s)
  else (cp, report pol json_parser_errc.invalid_hex_escape_sequence s)

/-- `append_codepoint`: hex digits feed `cp_`; anything else is reported as
`expected_value` (the source's default branch). -/
def append_codepoint (pol : Policy) (c : Nat) (s : JState) : JState :=
  if (48 ≤ c ∧ c ≤ 57) ∨ (97 ≤ c ∧ c ≤ 102) ∨ (65 ≤ c ∧ c ≤ 70) then
    let r := append_to_codepoint pol s.cp c s
    { r.2 with cp := r.1 }
  else report pol json_parser_errc.expected_value s

/-- `append_second_codepoint`. -/
def append_second_codepoint (pol : Policy) (c : Nat) (s : JState) : JState :=
  if (48 ≤ c ∧ c ≤ 57) ∨ (97 ≤ c ∧ c ≤ 102) ∨ (65 ≤ c ∧ c ≤ 70) then
    let r := append_to_codepoint pol s.cp2 c s
    { r.2 with cp2 := r.1 }
  else report pol json_parser_errc.expected_value s

/-- Shared post-value transition: to `done` plus `end_json` when the parent is
the root sentinel, else to `expect_comma_or_end`. -/
def after_value (s : JState) : JState :=
  if parent s = parse_state.root then
    emit json_event.end_json { s with state := parse_state.done }
  else
    { s with state := parse_state.expect_comma_or_end }

/-- `parse_true`: fast path when at least 4 characters remain, otherwise
consume one character and continue in the keyword states. -/
def parse_true (pol : Policy) (s : JState) : JState :=
  match s.input with
  | _ :: c1 :: c2 :: c3 :: rest =>
    if c1 = 114 ∧ c2 = 117 ∧ c3 = 101 then
      let s1 := emit (json_event.bool_value true) s
      after_value { s1 with input := rest, column := s1.column + 4 }
    else raise pol json_parser_errc.invalid_value s
  | _ :: rest => { s with input := rest, column := s.column + 1, state := parse_state.t }
  | [] => s

/-- `parse_null`. -/
def parse_null (pol : Policy) (s : JState) : JState :=
  match s.input with
  | _ :: c1 :: c2 :: c3 :: rest =>
    if c1 = 117 ∧ c2 = 108 ∧ c3 = 108 then
      let s1 := emit json_event.null_value s
      after_value { s1 with input := rest, column := s1.column + 4 }
    else raise pol json_parser_errc.invalid_value s
  | _ :: rest => { s with input := rest, column := s.column + 1, state := parse_state.n }
  | [] => s

/-- `parse_false`: fast path needs at least 5 characters. -/
def parse_false (pol : Policy) (s : JState) : JState :=
  match s.input with
  | _ :: c1 :: c2 :: c3 :: c4 :: rest =>
    if c1 = 97 ∧ c2 = 108 ∧ c3 = 115 ∧ c4 = 101 then
      let s1 := emit (json_event.bool_value false) s
      after_value { s1 with input := rest, column := s1.column + 5 }
    else raise pol json_parser_errc.invalid_value s
  | _ :: rest => { s with input := rest, column := s.column + 1, state := parse_state.f }
  | [] => s

/-- `parse_number`: the resumable number subroutine.  The source's labels are
the number states; each loop step consumes one character, so fuel
`input.length + 1` (as passed by the main loop) always suffices.  Every label
assigns `state_` before any read of it, so the current label is carried in the
`state` field. -/
def parse_number (pol : Policy) : Nat → JState → JState
  | 0, s => s
  | fuel + 1, s =>
    match s.state with
    | parse_state.minus =>
      match s.input with
      | [] => s
      | c :: rest =>
        if c = 48 then
          parse_number pol fuel
            { s with string_buffer := s.string_buffer ++ [c], input := rest,
                     column := s.column + 1, state := parse_state.zero }
        else if 49 ≤ c ∧ c ≤ 57 then
          parse_number pol fuel
            { s with string_buffer := s.string_buffer ++ [c], input := rest,
                     column := s.column + 1, state := parse_state.integer }
        else raise pol json_parser_errc.expected_value s
    | parse_state.zero =>
      match s.input with
      | [] => s
      | c :: rest =>
        if c = 13 then
          let s1 := end_integer_value pol s
          if s1.ec.isSome then s1
          else
            let s2 := { s1 with input := rest, column := s1.column + 1 }
            { (push_state s2.state s2) with state := parse_state.cr }
        else if c = 10 then
          let s1 := end_integer_value pol s
          if s1.ec.isSome then s1
          else
            let s2 := push_state s1.state s1
            { s2 with input := rest, column := s2.column + 1, state := parse_state.lf }
        else if c = 32 ∨ c = 9 then
          let s1 := end_integer_value pol s
          if s1.ec.isSome then s1 else skip_whitespace s1
        else if c = 47 then
          let s1 := end_integer_value pol s
          if s1.ec.isSome then s1
          else
            let s2 := { s1 with input := rest, column := s1.column + 1 }
            { (push_state s2.state s2) with state := parse_state.slash }
        else if c = 125 then
          let s1 := end_integer_value pol s
          if s1.ec.isSome then s1
          else
            let s2 := do_end_object pol s1
            { s2 with input := rest, column := s2.column + 1 }
        else if c = 93 then
          let s1 := end_integer_value pol s
          if s1.ec.isSome then s1
          else
            let s2 := do_end_array pol s1
            { s2 with input := rest, column := s2.column + 1 }
        else if c = 46 then
          parse_number pol fuel
            { s with precision := s.string_buffer.length % 256,
                     string_buffer := s.string_buffer ++ [c], input := rest,
                     column := s.column + 1, state := parse_state.fraction1 }
        else if c = 101 ∨ c = 69 then
          parse_number pol fuel
            { s with precision := s.string_buffer.length % 256,
                     string_buffer := s.string_buffer ++ [c], input := rest,
                     column := s.column + 1, state := parse_state.exp1 }
        else if c = 44 then
          let s1 := end_integer_value pol s
          if s1.ec.isSome then s1
          else
            let s2 := begin_member_or_element pol s1
            if s2.ec.isSome then s2
            else { s2 with input := rest, column := s2.column + 1 }
        else if 48 ≤ c ∧ c ≤ 57 then raise pol json_parser_errc.leading_zero s
        else raise pol json_parser_errc.invalid_number s
    | parse_state.integer =>
      match s.input with
      | [] => s
      | c :: rest =>
        if c = 13 then
          let s1 := end_integer_value pol s
          if s1.ec.isSome then s1
          else
            let s2 := push_state s1.state s1
            { s2 with input := rest, column := s2.column + 1, state := parse_state.cr }
        else if c = 10 then
          let s1 := end_integer_value pol s
          if s1.ec.isSome then s1
          else
            let s2 := push_state s1.state s1
            { s2 with input := rest, column := s2.column + 1, state := parse_state.lf }
        else if c = 32 ∨ c = 9 then
          let s1 := end_integer_value pol s
          if s1.ec.isSome then s1 else skip_whitespace s1
        else if c = 47 then
          let s1 := end_integer_value pol s
          if s1.ec.isSome then s1
          else
            let s2 := push_state s1.state s1
            { s2 with input := rest, column := s2.column + 1, state := parse_state.slash }
        else if c = 125 then
          let s1 := end_integer_value pol s
          if s1.ec.isSome then s1
          else
            let s2 := do_end_object pol s1
            if s2.ec.isSome then s2
            else { s2 with input := rest, column := s2.column + 1 }
        else if c = 93 then
          let s1 := end_integer_value pol s
          if s1.ec.isSome then s1
          else
            let s2 := do_end_array pol s1
            if s2.ec.isSome then s2
            else { s2 with input := rest, column := s2.column + 1 }
        else if 48 ≤ c ∧ c ≤ 57 then
          parse_number pol fuel
            { s with string_buffer := s.string_buffer ++ [c], input := rest,
                     column := s.column + 1 }
        else if c = 46 then
          parse_number pol fuel
            { s with precision := s.string_buffer.length % 256,
                     string_buffer := s.string_buffer ++ [c], input := rest,
                     column := s.column + 1, state := parse_state.fraction1 }
        else if c = 44 then
          let s1 := end_integer_value pol s
          if s1.ec.isSome then s1
          else
            let s2 := begin_member_or_element pol s1
            if s2.ec.isSome then s2
            else { s2 with input := rest, column := s2.column + 1 }
        else if c = 101 ∨ c = 69 then
          parse_number pol fuel
            { s with precision := s.string_buffer.length % 256,
                     string_buffer := s.string_buffer ++ [c], input := rest,
                     column := s.column + 1, state := parse_state.exp1 }
        else raise pol json_parser_errc.invalid_number s
    | parse_state.fraction1 =>
      match s.input with
      | [] => s
      | c :: rest =>
        if 48 ≤ c ∧ c ≤ 57 then
          parse_number pol fuel
            { s with precision := (s.precision + 1) % 256,
                     string_buffer := s.string_buffer ++ [c], input := rest,
                     column := s.column + 1, state := parse_state.fraction2 }
        else raise pol json_parser_errc.invalid_number s
    | parse_state.fraction2 =>
      match s.input with
      | [] => s
      | c :: rest =>
        if c = 13 then
          let s1 := end_fraction_value pol s
          if s1.ec.isSome then s1
          else
            let s2 := push_state s1.state s1
            { s2 with input := rest, column := s2.column + 1, state := parse_state.cr }
        else if c = 10 then
          let s1 := end_fraction_value pol s
          if s1.ec.isSome then s1
          else
            let s2 := push_state s1.state s1
            { s2 with input := rest, column := s2.column + 1, state := parse_state.lf }
        else if c = 32 ∨ c = 9 then
          let s1 := end_fraction_value pol s
          if s1.ec.isSome then s1 else skip_whitespace s1
        else if c = 47 then
          let s1 := end_fraction_value pol s
          if s1.ec.isSome then s1
          else
            let s2 := push_state s1.state s1
            { s2 with input := rest, column := s2.column + 1, state := parse_state.slash }
        else if c = 125 then
          let s1 := end_fraction_value pol s
          if s1.ec.isSome then s1
          else
            let s2 := do_end_object pol s1
            if s2.ec.isSome then s2
            else { s2 with input := rest, column := s2.column + 1 }
        else if c = 93 then
          let s1 := end_fraction_value pol s
          if s1.ec.isSome then s1
          else
            let s2 := do_end_array pol s1
            if s2.ec.isSome then s2
            else { s2 with input := rest, column := s2.column + 1 }
        else if 48 ≤ c ∧ c ≤ 57 then
          parse_number pol fuel
            { s with precision := (s.precision + 1) % 256,
                     string_buffer := s.string_buffer ++ [c], input := rest,
                     column := s.column + 1 }
        else if c = 44 then
          let s1 := end_fraction_value pol s
          if s1.ec.isSome then s1
          else
            let s2 := begin_member_or_element pol s1
            if s2.ec.isSome then s2
            else { s2 with input := rest, column := s2.column + 1 }
        else if c = 101 ∨ c = 69 then
          parse_number pol fuel
            { s with string_buffer := s.string_buffer ++ [c], input := rest,
                     column := s.column + 1, state := parse_state.exp1 }
        else raise pol json_parser_errc.invalid_number s
    | parse_state.exp1 =>
      match s.input with
      | [] => s
      | c :: rest =>
        if c = 43 then
          parse_number pol fuel
            { s with input := rest, column := s.column + 1, state := parse_state.exp2 }
        else if c = 45 then
          parse_number pol fuel
            { s with string_buffer := s.string_buffer ++ [c], input := rest,
                     column := s.column + 1, state := parse_state.exp2 }
        else if 48 ≤ c ∧ c ≤ 57 then
          parse_number pol fuel
            { s with string_buffer := s.string_buffer ++ [c], input := rest,
                     column := s.column + 1, state := parse_state.exp3 }
        else raise pol json_parser_errc.expected_value s
    | parse_state.exp2 =>
      match s.input with
      | [] => s
      | c :: rest =>
        if 48 ≤ c ∧ c ≤ 57 then
          parse_number pol fuel
            { s with string_buffer := s.string_buffer ++ [c], input := rest,
                     column := s.column + 1, state := parse_state.exp3 }
        else raise pol json_parser_errc.expected_value s
    | parse_state.exp3 =>
      match s.input with
      | [] => s
      | c :: rest =>
        if c = 13 then
          let s1 := end_fraction_value pol s
          if s1.ec.isSome then s1
          else
            let s2 := { s1 with input := rest, column := s1.column + 1 }
            { (push_state s2.state s2) with state := parse_state.cr }
        else if c = 10 then
          let s1 := end_fraction_value pol s
          if s1.ec.isSome then s1
          else
            let s2 := { s1 with input := rest, column := s1.column + 1 }
            { (push_state s2.state s2) with state := parse_state.lf }
        else if c = 32 ∨ c = 9 then
          let s1 := end_fraction_value pol s
          if s1.ec.isSome then s1 else skip_whitespace s1
        else if c = 47 then
          let s1 := end_fraction_value pol s
          if s1.ec.isSome then s1
          else
            let s2 := push_state s1.state s1
            { s2 with input := rest, column := s2.column + 1, state := parse_state.slash }
        else if c = 125 then
          let s1 := end_fraction_value pol s
          if s1.ec.isSome then s1
          else
            let s2 := do_end_object pol s1
            if s2.ec.isSome then s2
            else { s2 with input := rest, column := s2.column + 1 }
        else if c = 93 then
          let s1 := end_fraction_value pol s
          if s1.ec.isSome then s1
          else
            let s2 := do_end_array pol s1
            if s2.ec.isSome then s2
            else { s2 with input := rest, column := s2.column + 1 }
        else if c = 44 then
          let s1 := end_fraction_value pol s
          if s1.ec.isSome then s1
          else
            let s2 := begin_member_or_element pol s1
            if s2.ec.isSome then s2
            else { s2 with input := rest, column := s2.column + 1 }
        else if 48 ≤ c ∧ c ≤ 57 then
          parse_number pol fuel
            { s with string_buffer := s.string_buffer ++ [c], input := rest,
                     column := s.column + 1 }
        else raise pol json_parser_errc.invalid_number s
    | _ => s

/-- `parse_string`: the resumable string subroutine.  `label` is the current
goto label (on entry the dispatched state), `span` the raw characters scanned
since `sb`.  The `state` field is only written where the source assigns
`state_`; in particular `push_state(state_)` on a line break pushes the entry
state when the current label was reached by a goto that did not assign. -/
def parse_string (pol : Policy) : Nat → parse_state → List Nat → JState → JState
  | 0, _, _, s => s
  | fuel + 1, label, span, s =>
    match label with
    | parse_state.string_u1 =>
      match s.input with
      | [] =>
        let v := unicons_validate span
        match v.1 with
        | some e =>
          let s1 := translate_conv_errc pol e s
          { s1 with column := s1.column + v.2 }
        | none =>
          { s with string_buffer := s.string_buffer ++ span,
                   column := s.column + span.length + 1, state := parse_state.string_u1 }
      | c :: rest =>
        if is_illegal_ctrl c then
          let s1 := { s with column := s.column + span.length + 1 }
          let s2 := report pol json_parser_errc.illegal_control_character s1
          if s2.ec.isSome then { s2 with state := parse_state.string_u1 }
          else
            let v := unicons_validate span
            match v.1 with
            | some e =>
              let s3 := translate_conv_errc pol e s2
              { s3 with column := s3.column + v.2 }
            | none =>
              { s2 with string_buffer := s2.string_buffer ++ span, input := rest,
                        state := parse_state.string_u1 }
        else if c = 13 then
          let s1 := { s with column := s.column + span.length + 1 }
          let s2 := report pol json_parser_errc.illegal_character_in_string s1
          if s2.ec.isSome then { s2 with state := parse_state.string_u1 }
          else
            let v := unicons_validate span
            match v.1 with
            | some e =>
              let s3 := translate_conv_errc pol e s2
              { s3 with column := s3.column + v.2 }
            | none =>
              let s3 := { s2 with string_buffer := s2.string_buffer ++ span ++ [c],
                                  input := rest }
              { (push_state s3.state s3) with state := parse_state.cr }
        else if c = 10 then
          let s1 := { s with column := s.column + span.length + 1 }
          let s2 := report pol json_parser_errc.illegal_character_in_string s1
          if s2.ec.isSome then { s2 with state := parse_state.string_u1 }
          else
            let v := unicons_validate span
            match v.1 with
            | some e =>
              let s3 := translate_conv_errc pol e s2
              { s3 with column := s3.column + v.2 }
            | none =>
              let s3 := { s2 with string_buffer := s2.string_buffer ++ span ++ [c],
                                  input := rest }
              { (push_state s3.state s3) with state := parse_state.lf }
        else if c = 9 then
          let s1 := { s with column := s.column + span.length + 1 }
          let s2 := report pol json_parser_errc.illegal_character_in_string s1
          if s2.ec.isSome then { s2 with state := parse_state.string_u1 }
          else
            let v := unicons_validate span
            match v.1 with
            | some e =>
              let s3 := translate_conv_errc pol e s2
              { s3 with column := s3.column + v.2 }
            | none =>
              { s2 with string_buffer := s2.string_buffer ++ span ++ [c], input := rest,
                        state := parse_state.string_u1 }
        else if c = 92 then
          let v := unicons_validate span
          match v.1 with
          | some e =>
            let s1 := translate_conv_errc pol e s
            { s1 with column := s1.column + v.2 }
          | none =>
            let s1 := { s with string_buffer := s.string_buffer ++ span,
                                column := s.column + span.length + 1, input := rest }
            parse_string pol fuel parse_state.escape [] s1
        else if c = 34 then
          let v := unicons_validate span
          match v.1 with
          | some e =>
            let s1 := translate_conv_errc pol e s
            { s1 with column := s1.column + v.2 }
          | none =>
            if s.string_buffer = [] then
              let s1 := end_string_value pol span s
              if s1.ec.isSome then s1
              else { s1 with column := s1.column + span.length + 1, input := rest }
            else
              let s1 := { s with string_buffer := s.string_buffer ++ span }
              let s2 := end_string_value pol s1.string_buffer s1
              let s3 := { s2 with string_buffer := [] }
              if s3.ec.isSome then s3
              else { s3 with column := s3.column + span.length + 1, input := rest }
        else parse_string pol fuel parse_state.string_u1 (span ++ [c]) { s with input := rest }
    | parse_state.escape =>
      match s.input with
      | [] => { s with state := parse_state.escape }
      | c :: rest =>
        if c = 34 then
          parse_string pol fuel parse_state.string_u1 []
            { s with string_buffer := s.string_buffer ++ [34], input := rest,
                     column := s.column + 1 }
        else if c = 92 then
          parse_string pol fuel parse_state.string_u1 []
            { s with string_buffer := s.string_buffer ++ [92], input := rest,
                     column := s.column + 1 }
        else if c = 47 then
          parse_string pol fuel parse_state.string_u1 []
            { s with string_buffer := s.string_buffer ++ [47], input := rest,
                     column := s.column + 1 }
        else if c = 98 then
          parse_string pol fuel parse_state.string_u1 []
            { s with string_buffer := s.string_buffer ++ [8], input := rest,
                     column := s.column + 1 }
        else if c = 102 then
          parse_string pol fuel parse_state.string_u1 []
            { s with string_buffer := s.string_buffer ++ [12], input := rest,
                     column := s.column + 1 }
        else if c = 110 then
          parse_string pol fuel parse_state.string_u1 []
            { s with string_buffer := s.string_buffer ++ [10], input := rest,
                     column := s.column + 1 }
        else if c = 114 then
          parse_string pol fuel parse_state.string_u1 []
            { s with string_buffer := s.string_buffer ++ [13], input := rest,
                     column := s.column + 1 }
        else if c = 116 then
          parse_string pol fuel parse_state.string_u1 []
            { s with string_buffer := s.string_buffer ++ [9], input := rest,
                     column := s.column + 1 }
        else if c = 117 then
          parse_string pol fuel parse_state.escape_u1 []
            { s with cp := 0, input := rest, column := s.column + 1 }
        else
          raise pol json_parser_errc.illegal_escaped_character
            { s with state := parse_state.escape }
    | parse_state.escape_u1 =>
      match s.input with
      | [] => { s with state := parse_state.escape_u1 }
      | c :: rest =>
        let s1 := append_codepoint pol c s
        if s1.ec.isSome then { s1 with state := parse_state.escape_u1 }
        else
          parse_string pol fuel parse_state.escape_u2 span
            { s1 with input := rest, column := s1.column + 1 }
    | parse_state.escape_u2 =>
      match s.input with
      | [] => { s with state := parse_state.escape_u2 }
      | c :: rest =>
        let s1 := append_codepoint pol c s
        if s1.ec.isSome then { s1 with state := parse_state.escape_u2 }
        else
          parse_string pol fuel parse_state.escape_u3 span
            { s1 with input := rest, column := s1.column + 1 }
    | parse_state.escape_u3 =>
      match s.input with
      | [] => { s with state := parse_state.escape_u3 }
      | c :: rest =>
        let s1 := append_codepoint pol c s
        if s1.ec.isSome then { s1 with state := parse_state.escape_u3 }
        else
          parse_string pol fuel parse_state.escape_u4 span
            { s1 with input := rest, column := s1.column + 1 }
    | parse_state.escape_u4 =>
      match s.input with
      | [] => { s with state := parse_state.escape_u4 }
      | c :: rest =>
        let s1 := append_codepoint pol c s
        if s1.ec.isSome then { s1 with state := parse_state.escape_u4 }
        else if is_high_surrogate s1.cp then
          parse_string pol fuel parse_state.escape_expect_surrogate_pair1 span
            { s1 with input := rest, column := s1.column + 1 }
        else
          { s1 with string_buffer := s1.string_buffer ++ unicons_convert s1.cp,
                    input := rest, column := s1.column + 1, state := parse_state.string_u1 }
    | parse_state.escape_expect_surrogate_pair1 =>
      match s.input with
      | [] => { s with state := parse_state.escape_expect_surrogate_pair1 }
      | c :: rest =>
        if c = 92 then
          parse_string pol fuel parse_state.escape_expect_surrogate_pair2 span
            { s with cp2 := 0, input := rest, column := s.column + 1 }
        else
          raise pol json_parser_errc.expected_codepoint_surrogate_pair
            { s with state := parse_state.escape_expect_surrogate_pair1 }
    | parse_state.escape_expect_surrogate_pair2 =>
      match s.input with
      | [] => { s with state := parse_state.escape_expect_surrogate_pair2 }
      | c :: rest =>
        if c = 117 then
          parse_string pol fuel parse_state.escape_u6 span
            { s with input := rest, column := s.column + 1 }
        else
          raise pol json_parser_errc.expected_codepoint_surrogate_pair
            { s with state := parse_state.escape_expect_surrogate_pair2 }
    | parse_state.escape_u6 =>
      match s.input with
      | [] => { s with state := parse_state.escape_u6 }
      | c :: rest =>
        let s1 := append_second_codepoint pol c s
        if s1.ec.isSome then { s1 with state := parse_state.escape_u6 }
        else
          parse_string pol fuel parse_state.escape_u7 span
            { s1 with input := rest, column := s1.column + 1 }
    | parse_state.escape_u7 =>
      match s.input with
      | [] => { s with state := parse_state.escape_u7 }
      | c :: rest =>
        let s1 := append_second_codepoint pol c s
        if s1.ec.isSome then { s1 with state := parse_state.escape_u7 }
        else
          parse_string pol fuel parse_state.escape_u8 span
            { s1 with input := rest, column := s1.column + 1 }
    | parse_state.escape_u8 =>
      match s.input with
      | [] => { s with state := parse_state.escape_u8 }
      | c :: rest =>
        let s1 := append_second_codepoint pol c s
        if s1.ec.isSome then { s1 with state := parse_state.escape_u8 }
        else
          parse_string pol fuel parse_state.escape_u9 span
            { s1 with input := rest, column := s1.column + 1 }
    | parse_state.escape_u9 =>
      match s.input with
      | [] => { s with state := parse_state.escape_u9 }
      | c :: rest =>
        let s1 := append_second_codepoint pol c s
        if s1.ec.isSome then { s1 with state := parse_state.escape_u9 }
        else
          let cpv := 65536 + (s1.cp &&& 1023) * 1024 + (s1.cp2 &&& 1023)
          parse_string pol fuel parse_state.string_u1 []
            { s1 with string_buffer := s1.string_buffer ++ unicons_convert cpv,
                      input := rest, column := s1.column + 1 }
    | _ => s

/-- The `start` case of the main loop (note: `begin_json` is emitted on every
iteration that dispatches here). -/
def step_start (pol : Policy) (c : Nat) (rest : List Nat) (s : JState) : JState :=
  let s := emit json_event.begin_json s
  if is_illegal_ctrl c then report pol json_parser_errc.illegal_control_character s
  else if c = 13 then
    { (push_state parse_state.start s) with
        input := rest, column := s.column + 1,
        state := parse_state.cr }
  else if c = 10 then
    { (push_state parse_state.start s) with
        input := rest, column := s.column + 1,
        state := parse_state.lf }
  else if c = 32 ∨ c = 9 then skip_whitespace s
  else if c = 47 then
    { (push_state parse_state.start s) with
        input := rest, column := s.column + 1,
        state := parse_state.slash }
  else if c = 123 then
    let s1 := do_begin_object pol s
    if s1.ec.isSome then s1 else { s1 with input := rest, column := s1.column + 1 }
  else if c = 91 then
    let s1 := do_begin_array pol s
    if s1.ec.isSome then s1 else { s1 with input := rest, column := s1.column + 1 }
  else if c = 34 then
    { s with state := parse_state.string_u1, input := rest, column := s.column + 1 }
  else if c = 45 then
    { s with is_negative := true, state := parse_state.minus, input := rest,
             column := s.column + 1 }
  else if c = 48 then
    { s with string_buffer := s.string_buffer ++ [c], state := parse_state.zero,
             input := rest, column := s.column + 1 }
  else if 49 ≤ c ∧ c ≤ 57 then
    { s with string_buffer := s.string_buffer ++ [c], state := parse_state.integer,
             input := rest, column := s.column + 1 }
  else if c = 110 then parse_null pol s
  else if c = 116 then parse_true pol s
  else if c = 102 then parse_false pol s
  else if c = 125 then fatal_error json_parser_errc.unexpected_right_brace s
  else if c = 93 then fatal_error json_parser_errc.unexpected_right_bracket s
  else fatal_error json_parser_errc.invalid_json_text s

/-- The `expect_comma_or_end` case of the main loop. -/
def step_expect_comma_or_end (pol : Policy) (c : Nat) (rest : List Nat) (s : JState) :
    JState :=
  if is_illegal_ctrl c then
    let s1 := report pol json_parser_errc.illegal_control_character s
    if s1.ec.isSome then s1 else { s1 with input := rest, column := s1.column + 1 }
  else if c = 13 then
    { (push_state parse_state.expect_comma_or_end s) with
        input := rest,
        column := s.column + 1, state := parse_state.cr }
  else if c = 10 then
    { (push_state parse_state.expect_comma_or_end s) with
        input := rest,
        column := s.column + 1, state := parse_state.lf }
  else if c = 32 ∨ c = 9 then skip_whitespace s
  else if c = 47 then
    { (push_state parse_state.expect_comma_or_end s) with
        input := rest,
        column := s.column + 1, state := parse_state.slash }
  else if c = 125 then
    let s1 := do_end_object pol s
    if s1.ec.isSome then s1 else { s1 with input := rest, column := s1.column + 1 }
  else if c = 93 then
    let s1 := do_end_array pol s
    if s1.ec.isSome then s1 else { s1 with input := rest, column := s1.column + 1 }
  else if c = 44 then
    let s1 := begin_member_or_element pol s
    if s1.ec.isSome then s1 else { s1 with input := rest, column := s1.column + 1 }
  else if parent s = parse_state.array then
    let s1 := report pol json_parser_errc.expected_comma_or_right_bracket s
    if s1.ec.isSome then s1 else { s1 with input := rest, column := s1.column + 1 }
  else if parent s = parse_state.object then
    let s1 := report pol json_parser_errc.expected_comma_or_right_brace s
    if s1.ec.isSome then s1 else { s1 with input := rest, column := s1.column + 1 }
  else { s with input := rest, column := s.column + 1 }

/-- The `expect_member_name_or_end` case of the main loop. -/
def step_expect_member_name_or_end (pol : Policy) (c : Nat) (rest : List Nat)
    (s : JState) : JState :=
  if is_illegal_ctrl c then
    let s1 := report pol json_parser_errc.illegal_control_character s
    if s1.ec.isSome then s1 else { s1 with input := rest, column := s1.column + 1 }
  else if c = 13 then
    { (push_state parse_state.expect_member_name_or_end s) with
        input := rest,
        column := s.column + 1, state := parse_state.cr }
  else if c = 10 then
    { (push_state parse_state.expect_member_name_or_end s) with
        input := rest,
        column := s.column + 1, state := parse_state.lf }
  else if c = 32 ∨ c = 9 then skip_whitespace s
  else if c = 47 then
    { (push_state parse_state.expect_member_name_or_end s) with
        input := rest,
        column := s.column + 1, state := parse_state.slash }
  else if c = 125 then
    let s1 := do_end_object pol s
    if s1.ec.isSome then s1 else { s1 with input := rest, column := s1.column + 1 }
  else if c = 34 then
    { (push_state parse_state.member_name s) with
        input := rest, column := s.column + 1,
        state := parse_state.string_u1 }
  else if c = 39 then
    let s1 := report pol json_parser_errc.single_quote s
    if s1.ec.isSome then s1 else { s1 with input := rest, column := s1.column + 1 }
  else
    let s1 := report pol json_parser_errc.expected_name s
    if s1.ec.isSome then s1 else { s1 with input := rest, column := s1.column + 1 }

/-- The `expect_member_name` case of the main loop. -/
def step_expect_member_name (pol : Policy) (c : Nat) (rest : List Nat) (s : JState) :
    JState :=
  if is_illegal_ctrl c then
    let s1 := report pol json_parser_errc.illegal_control_character s
    if s1.ec.isSome then s1 else { s1 with input := rest, column := s1.column + 1 }
  else if c = 13 then
    { (push_state parse_state.expect_member_name s) with
        input := rest,
        column := s.column + 1, state := parse_state.cr }
  else if c = 10 then
    { (push_state parse_state.expect_member_name s) with
        input := rest,
        column := s.column + 1, state := parse_state.lf }
  else if c = 32 ∨ c = 9 then skip_whitespace s
  else if c = 47 then
    { (push_state parse_state.expect_member_name s) with
        input := rest,
        column := s.column + 1, state := parse_state.slash }
  else if c = 34 then
    { (push_state parse_state.member_name s) with
        input := rest, column := s.column + 1,
        state := parse_state.string_u1 }
  else if c = 125 then
    let s1 := report pol json_parser_errc.extra_comma s
    if s1.ec.isSome then s1
    else
      let s2 := do_end_object pol s1
      if s2.ec.isSome then s2 else { s2 with input := rest, column := s2.column + 1 }
  else if c = 39 then
    let s1 := report pol json_parser_errc.single_quote s
    if s1.ec.isSome then s1 else { s1 with input := rest, column := s1.column + 1 }
  else
    let s1 := report pol json_parser_errc.expected_name s
    if s1.ec.isSome then s1 else { s1 with input := rest, column := s1.column + 1 }

/-- The `expect_colon` case of the main loop. -/
def step_expect_colon (pol : Policy) (c : Nat) (rest : List Nat) (s : JState) : JState :=
  if is_illegal_ctrl c then
    let s1 := report pol json_parser_errc.illegal_control_character s
    if s1.ec.isSome then s1 else { s1 with input := rest, column := s1.column + 1 }
  else if c = 13 then
    { (push_state parse_state.expect_colon s) with
        input := rest, column := s.column + 1,
        state := parse_state.cr }
  else if c = 10 then
    { (push_state parse_state.expect_colon s) with
        input := rest, column := s.column + 1,
        state := parse_state.lf }
  else if c = 32 ∨ c = 9 then skip_whitespace s
  else if c = 47 then
    { (push_state parse_state.expect_colon s) with
        input := rest, column := s.column + 1,
        state := parse_state.slash }
  else if c = 58 then
    { s with state := parse_state.expect_value, input := rest, column := s.column + 1 }
  else
    let s1 := report pol json_parser_errc.expected_colon s
    if s1.ec.isSome then s1 else { s1 with input := rest, column := s1.column + 1 }

/-- The `expect_value` case of the main loop. -/
def step_expect_value (pol : Policy) (c : Nat) (rest : List Nat) (s : JState) : JState :=
  if is_illegal_ctrl c then
    let s1 := report pol json_parser_errc.illegal_control_character s
    if s1.ec.isSome then s1 else { s1 with input := rest, column := s1.column + 1 }
  else if c = 13 then
    { (push_state parse_state.expect_value s) with
        input := rest, column := s.column + 1,
        state := parse_state.cr }
  else if c = 10 then
    { (push_state parse_state.expect_value s) with
        input := rest, column := s.column + 1,
        state := parse_state.lf }
  else if c = 32 ∨ c = 9 then skip_whitespace s
  else if c = 47 then
    { (push_state parse_state.expect_value s) with
        input := rest, column := s.column + 1,
        state := parse_state.slash }
  else if c = 123 then
    let s1 := do_begin_object pol s
    if s1.ec.isSome then s1 else { s1 with input := rest, column := s1.column + 1 }
  else if c = 91 then
    let s1 := do_begin_array pol s
    if s1.ec.isSome then s1 else { s1 with input := rest, column := s1.column + 1 }
  else if c = 34 then
    { s with input := rest, column := s.column + 1, state := parse_state.string_u1 }
  else if c = 45 then
    { s with is_negative := true, input := rest, column := s.column + 1,
             state := parse_state.minus }
  else if c = 48 then
    { s with string_buffer := s.string_buffer ++ [c], input := rest,
             column := s.column + 1, state := parse_state.zero }
  else if 49 ≤ c ∧ c ≤ 57 then
    { s with string_buffer := s.string_buffer ++ [c], input := rest,
             column := s.column + 1, state := parse_state.integer }
  else if c = 110 then parse_null pol s
  else if c = 116 then parse_true pol s
  else if c = 102 then parse_false pol s
  else if c = 93 then
    if parent s = parse_state.array then
      let s1 := report pol json_parser_errc.extra_comma s
      if s1.ec.isSome then s1
      else
        let s2 := do_end_array pol s1
        if s2.ec.isSome then s2 else { s2 with input := rest, column := s2.column + 1 }
    else
      let s1 := report pol json_parser_errc.expected_value s
      if s1.ec.isSome then s1 else { s1 with input := rest, column := s1.column + 1 }
  else if c = 39 then
    let s1 := report pol json_parser_errc.single_quote s
    if s1.ec.isSome then s1 else { s1 with input := rest, column := s1.column + 1 }
  else
    let s1 := report pol json_parser_errc.expected_value s
    if s1.ec.isSome then s1 else { s1 with input := rest, column := s1.column + 1 }

/-- The `expect_value_or_end` case of the main loop. -/
def step_expect_value_or_end (pol : Policy) (c : Nat) (rest : List Nat) (s : JState) :
    JState :=
  if is_illegal_ctrl c then
    let s1 := report pol json_parser_errc.illegal_control_character s
    if s1.ec.isSome then s1 else { s1 with input := rest, column := s1.column + 1 }
  else if c = 13 then
    { (push_state parse_state.expect_value_or_end s) with
        input := rest,
        column := s.column + 1, state := parse_state.cr }
  else if c = 10 then
    { (push_state parse_state.expect_value_or_end s) with
        input := rest,
        column := s.column + 1, state := parse_state.lf }
  else if c = 32 ∨ c = 9 then skip_whitespace s
  else if c = 47 then
    { (push_state parse_state.expect_value_or_end s) with
        input := rest,
        column := s.column + 1, state := parse_state.slash }
  else if c = 123 then
    let s1 := do_begin_object pol s
    if s1.ec.isSome then s1 else { s1 with input := rest, column := s1.column + 1 }
  else if c = 91 then
    let s1 := do_begin_array pol s
    if s1.ec.isSome then s1 else { s1 with input := rest, column := s1.column + 1 }
  else if c = 93 then
    let s1 := do_end_array pol s
    if s1.ec.isSome then s1 else { s1 with input := rest, column := s1.column + 1 }
  else if c = 34 then
    { s with input := rest, column := s.column + 1, state := parse_state.string_u1 }
  else if c = 45 then
    { s with is_negative := true, input := rest, column := s.column + 1,
             state := parse_state.minus }
  else if c = 48 then
    { s with string_buffer := s.string_buffer ++ [c], input := rest,
             column := s.column + 1, state := parse_state.zero }
  else if 49 ≤ c ∧ c ≤ 57 then
    { s with string_buffer := s.string_buffer ++ [c], input := rest,
             column := s.column + 1, state := parse_state.integer }
  else if c = 110 then parse_null pol s
  else if c = 116 then parse_true pol s
  else if c = 102 then parse_false pol s
  else if c = 39 then
    let s1 := report pol json_parser_errc.single_quote s
    if s1.ec.isSome then s1 else { s1 with input := rest, column := s1.column + 1 }
  else
    let s1 := report pol json_parser_errc.expected_value s
    if s1.ec.isSome then s1 else { s1 with input := rest, column := s1.column + 1 }

/-- The `slash` case of the main loop: only `/*` or `//` continue (as an
`illegal_comment` per policy); anything else is `invalid_json_text`. -/
def step_slash (pol : Policy) (c : Nat) (rest : List Nat) (s : JState) : JState :=
  if c = 42 then
    let s1 := report pol json_parser_errc.illegal_comment
      { s with state := parse_state.slash_star }
    if s1.ec.isSome then s1 else { s1 with input := rest, column := s1.column + 1 }
  else if c = 47 then
    let s1 := report pol json_parser_errc.illegal_comment
      { s with state := parse_state.slash_slash }
    if s1.ec.isSome then s1 else { s1 with input := rest, column := s1.column + 1 }
  else
    let s1 := report pol json_parser_errc.invalid_json_text s
    if s1.ec.isSome then s1 else { s1 with input := rest, column := s1.column + 1 }

/-- The `slash_star` case of the main loop. -/
def step_slash_star (c : Nat) (rest : List Nat) (s : JState) : JState :=
  if c = 13 then
    { (push_state parse_state.slash_star s) with
        input := rest, column := s.column + 1,
        state := parse_state.cr }
  else if c = 10 then
    { (push_state parse_state.slash_star s) with
        input := rest, column := s.column + 1,
        state := parse_state.lf }
  else if c = 42 then
    { s with state := parse_state.slash_star_star, input := rest, column := s.column + 1 }
  else { s with input := rest, column := s.column + 1 }

/-- The `slash_slash` case of the main loop: a line break is left unconsumed
and reprocessed in the popped state. -/
def step_slash_slash (c : Nat) (rest : List Nat) (s : JState) : JState :=
  if c = 13 ∨ c = 10 then
    let p := pop_state s
    { p.2 with state := p.1 }
  else { s with input := rest, column := s.column + 1 }

/-- The `slash_star_star` case of the main loop. -/
def step_slash_star_star (c : Nat) (rest : List Nat) (s : JState) : JState :=
  if c = 47 then
    let p := pop_state s
    { p.2 with state := p.1, input := rest, column := p.2.column + 1 }
  else { s with state := parse_state.slash_star, input := rest, column := s.column + 1 }

/-- One iteration of the main `parse` loop body, dispatching on the state.
`c :: rest` is the current input. -/
def parse_one (pol : Policy) (c : Nat) (rest : List Nat) (s : JState) : JState :=
  match s.state with
  | parse_state.cr =>
    let s1 := { s with line := s.line + 1, column := 1 }
    let p := pop_state s1
    if c = 10 then { p.2 with state := p.1, input := rest }
    else { p.2 with state := p.1 }
  | parse_state.lf =>
    let s1 := { s with line := s.line + 1, column := 1 }
    let p := pop_state s1
    { p.2 with state := p.1 }
  | parse_state.start => step_start pol c rest s
  | parse_state.expect_comma_or_end => step_expect_comma_or_end pol c rest s
  | parse_state.expect_member_name_or_end => step_expect_member_name_or_end pol c rest s
  | parse_state.expect_member_name => step_expect_member_name pol c rest s
  | parse_state.expect_colon => step_expect_colon pol c rest s
  | parse_state.expect_value => step_expect_value pol c rest s
  | parse_state.expect_value_or_end => step_expect_value_or_end pol c rest s
  | parse_state.string_u1 => parse_string pol (s.input.length + 1) s.state [] s
  | parse_state.escape => parse_string pol (s.input.length + 1) s.state [] s
  | parse_state.escape_u1 => parse_string pol (s.input.length + 1) s.state [] s
  | parse_state.escape_u2 => parse_string pol (s.input.length + 1) s.state [] s
  | parse_state.escape_u3 => parse_string pol (s.input.length + 1) s.state [] s
  | parse_state.escape_u4 => parse_string pol (s.input.length + 1) s.state [] s
  | parse_state.escape_expect_surrogate_pair1 =>
    parse_string pol (s.input.length + 1) s.state [] s
  | parse_state.escape_expect_surrogate_pair2 =>
    parse_string pol (s.input.length + 1) s.state [] s
  | parse_state.escape_u6 => parse_string pol (s.input.length + 1) s.state [] s
  | parse_state.escape_u7 => parse_string pol (s.input.length + 1) s.state [] s
  | parse_state.escape_u8 => parse_string pol (s.input.length + 1) s.state [] s
  | parse_state.escape_u9 => parse_string pol (s.input.length + 1) s.state [] s
  | parse_state.minus => parse_number pol (s.input.length + 1) s
  | parse_state.zero => parse_number pol (s.input.length + 1) s
  | parse_state.integer => parse_number pol (s.input.length + 1) s
  | parse_state.fraction1 => parse_number pol (s.input.length + 1) s
  | parse_state.fraction2 => parse_number pol (s.input.length + 1) s
  | parse_state.exp1 => parse_number pol (s.input.length + 1) s
  | parse_state.exp2 => parse_number pol (s.input.length + 1) s
  | parse_state.exp3 => parse_number pol (s.input.length + 1) s
  | parse_state.t =>
    if c = 114 then { s with input := rest, column := s.column + 1, state := parse_state.tr }
    else raise pol json_parser_errc.invalid_value s
  | parse_state.tr =>
    if c = 117 then { s with state := parse_state.tru, input := rest, column := s.column + 1 }
    else raise pol json_parser_errc.invalid_value s
  | parse_state.tru =>
    if c = 101 then
      let s1 := after_value (emit (json_event.bool_value true) s)
      { s1 with input := rest, column := s1.column + 1 }
    else raise pol json_parser_errc.invalid_value s
  | parse_state.f =>
    if c = 97 then { s with input := rest, column := s.column + 1, state := parse_state.fa }
    else raise pol json_parser_errc.invalid_value s
  | parse_state.fa =>
    if c = 108 then { s with state := parse_state.fal, input := rest, column := s.column + 1 }
    else raise pol json_parser_errc.invalid_value s
  | parse_state.fal =>
    if c = 115 then { s with state := parse_state.fals, input := rest, column := s.column + 1 }
    else raise pol json_parser_errc.invalid_value s
  | parse_state.fals =>
    if c = 101 then
      let s1 := after_value (emit (json_event.bool_value false) s)
      { s1 with input := rest, column := s1.column + 1 }
    else raise pol json_parser_errc.invalid_value s
  | parse_state.n =>
    if c = 117 then { s with input := rest, column := s.column + 1, state := parse_state.nu }
    else raise pol json_parser_errc.invalid_value s
  | parse_state.nu =>
    if c = 108 then { s with state := parse_state.nul, input := rest, column := s.column + 1 }
    else raise pol json_parser_errc.invalid_value s
  | parse_state.nul =>
    if c = 108 then
      let s1 := after_value (emit json_event.null_value s)
      { s1 with input := rest, column := s1.column + 1 }
    else raise pol json_parser_errc.invalid_value s
  | parse_state.slash => step_slash pol c rest s
  | parse_state.slash_slash => step_slash_slash c rest s
  | parse_state.slash_star => step_slash_star c rest s
  | parse_state.slash_star_star => step_slash_star_star c rest s
  | _ => s

/-- The main `parse(ec)` loop: runs while input remains and the state is not
`done`, returning as soon as an error code is written.  `fuel` bounds the loop
iterations; the driver's `2 * length + 4` always suffices because every
iteration either consumes a character or leaves the transient `cr`/`lf`
state. -/
def parse (pol : Policy) : Nat → JState → JState
  | 0, s => s
  | fuel + 1, s =>
    if s.state = parse_state.done then s
    else
      match s.input with
      | [] => s
      | c :: rest =>
        let s1 := parse_one pol c rest s
        if s1.ec.isSome then s1 else parse pol fuel s1

/-- The number-flushing prefix of `end_parse`: only when the parent frame is
the root sentinel, and only from the four terminable number states. -/
def end_parse_flush (pol : Policy) (s : JState) : JState :=
  if parent s = parse_state.root then
    if s.state = parse_state.zero ∨ s.state = parse_state.integer then
      end_integer_value pol s
    else if s.state = parse_state.fraction2 ∨ s.state = parse_state.exp3 then
      end_fraction_value pol s
    else s
  else s

/-- The `lf`/`cr` unwinding step of `end_parse`. -/
def end_parse_pop (s : JState) : JState :=
  if s.state = parse_state.lf ∨ s.state = parse_state.cr then
    let p := pop_state s
    { p.2 with state := p.1 }
  else s

/-- `end_parse(ec)`. -/
def end_parse (pol : Policy) (s : JState) : JState :=
  let s1 := end_parse_flush pol s
  if s1.ec.isSome then s1
  else
    let s2 := end_parse_pop s1
    if s2.state = parse_state.done ∨ s2.state = parse_state.start then s2
    else report pol json_parser_errc.unexpected_eof s2

/-- The trailing-characters scan of `check_done`. -/
def check_done_loop (pol : Policy) : List Nat → JState → JState
  | [], s => s
  | c :: rest, s =>
    if c = 10 ∨ c = 13 ∨ c = 9 ∨ c = 32 then
      check_done_loop pol rest { s with input := rest }
    else
      let s1 := report pol json_parser_errc.extra_character s
      if s1.ec.isSome then s1 else check_done_loop pol rest { s1 with input := rest }

/-- `check_done(ec)`. -/
def check_done (pol : Policy) (s : JState) : JState :=
  let s1 :=
    if s.state ≠ parse_state.done then report pol json_parser_errc.unexpected_eof s else s
  if s1.ec.isSome then s1 else check_done_loop pol s1.input s1

/-- Run `parse` over the current input span with always-sufficient fuel. -/
def parse_all (pol : Policy) (s : JState) : JState :=
  parse pol (2 * s.input.length + 4) s

/-- Feed chunks one by one through `set_source` + `parse`, stopping at the
first written error code, as a host driver does. -/
def feed_chunks (pol : Policy) : List (List Nat) → JState → JState
  | [], s => s
  | chunk :: rest, s =>
    if s.ec.isSome then s
    else feed_chunks pol rest (parse_all pol (set_source chunk s))

/-- Feed the given chunks from a fresh parser and finish with `end_parse`. -/
def run_chunked (pol : Policy) (chunks : List (List Nat)) : JState :=
  let s := feed_chunks pol chunks init_state
  if s.ec.isSome then s else end_parse pol s

/-- Same as `run_chunked` with a single chunk, after setting the depth cap. -/
def run_with_cap (cap : Nat) (pol : Policy) (input : List Nat) : JState :=
  let s := parse_all pol (set_source input (max_nesting_depth cap init_state))
  if s.ec.isSome then s else end_parse pol s

/-- The numeric events: `integer_value`, `uinteger_value`, `double_value`. -/
def is_numeric_event : json_event → Bool
  | json_event.integer_value _ => true
  | json_event.uinteger_value _ => true
  | json_event.double_value _ _ _ => true
  | _ => false

/-- The mathematical value of a decimal digit string (code units). -/
def dec_value (ds : List Nat) : Nat :=
  ds.foldl (fun a c => a * 10 + (c - 48)) 0

/-- `ds` is the canonical decimal literal of its value: nonempty, all digits,
and no leading zero unless it is exactly "0". -/
def good_digits (ds : List Nat) : Prop :=
  ds ≠ [] ∧ (∀ c ∈ ds, 48 ≤ c ∧ c ≤ 57) ∧ (1 < ds.length → ds.head? ≠ some 48)

instance (ds : List Nat) : Decidable (good_digits ds) := by
  unfold good_digits
  infer_instance

/-- The input of k nested arrays: k left brackets then k right brackets. -/
def nested_brackets (k : Nat) : List Nat :=
  List.replicate k 91 ++ List.replicate k 93

/-- Claim C1 (code-bug evaluation): chunk-independence fails.  Feeding the
text "  1" as the two chunks " " and " 1" (a split inside the leading
whitespace run) delivers three `begin_json` events, while feeding the same
text as a single chunk delivers two: the `start` case of the parse loop calls
`handler_.begin_json()` on every iteration, so each chunk-local whitespace run
in the `start` state adds one.  The claim says the event sequence is identical
for every splitting. -/
theorem c1_chunk_split_changes_events :
    (run_chunked abort_all [[32, 32, 49]]).events =
      [json_event.begin_json, json_event.begin_json, json_event.uinteger_value 1,
        json_event.end_json] ∧
    (run_chunked abort_all [[32], [32, 49]]).events =
      [json_event.begin_json, json_event.begin_json, json_event.begin_json,
        json_event.uinteger_value 1, json_event.end_json] ∧
    (run_chunked abort_all [[32], [32, 49]]).events ≠
      (run_chunked abort_all [[32, 32, 49]]).events :=
  ⟨by decide, by decide, by decide⟩

/-- Claim C2 (code-bug evaluation): on the balanced input " 1", which parses
to completion with no error, `begin_json` is emitted twice, not exactly once:
the `start` case of the parse loop emits it before dispatching on the
character, and the loop re-enters `start` after the whitespace skip.  The
`begin_object`/`end_object` and `begin_array`/`end_array` balance is not at
issue here; the `begin_json` multiplicity refutes the claim as stated. -/
theorem c2_leading_whitespace_duplicates_begin_json :
    (run_chunked abort_all [[32, 49]]).events =
      [json_event.begin_json, json_event.begin_json, json_event.uinteger_value 1,
        json_event.end_json] ∧
    (run_chunked abort_all [[32, 49]]).ec = none ∧
    (run_chunked abort_all [[32, 49]]).state = parse_state.done ∧
    (run_chunked abort_all [[32, 49]]).events.count json_event.begin_json = 2 :=
  ⟨by decide, by decide, by decide, by decide⟩

/-- Claim C4 (counterexample): `leading_zero` is reported through
`err_handler_.error(...)`, i.e. it is a recoverable kind, yet on input "01"
with the all-continue policy the parser still writes `leading_zero` into the
caller's error code — the site ignores the policy's return value. -/
theorem c4_continue_policy_still_writes_leading_zero :
    (run_chunked continue_all [[48, 49]]).ec = some json_parser_errc.leading_zero :=
  by decide

set_option maxRecDepth 8192 in
set_option maxHeartbeats 2000000 in
/-- Claim C4 (amended): the policy verdict decides the outcome only at the
policy-checked sites.  First conjunct: at the always-write sites —
`leading_zero` ("01"), `invalid_value` ("tx"), `invalid_number` ("1x"),
`expected_value` in the number grammar ("-x") and `illegal_escaped_character`
("\x" in a string) — the error code is written for *every* policy.  Second
conjunct: the same always-write behaviour holds for
`expected_codepoint_surrogate_pair` (a high surrogate not followed by an
escape), verified under both the all-abort and the all-continue policy.
Third conjunct: at the policy-checked sites the abort verdict writes the
code: `extra_comma` ("[1,]"), `unexpected_eof` ("[" then `end_parse`),
`extra_character` (trailing "2" in `check_done`), `illegal_character_in_string`
(a raw tab in a string), `single_quote` ("['...]") and `expected_name`
("{1}").  Fourth conjunct: at those same sites a continue verdict suppresses
the code and the documented recovery applies — the array is closed keeping
its elements, the too-deep frame is still opened and the document completes,
end-of-input and the trailing character pass silently, the tab is kept in the
string, and the quote and the bad name character are skipped.  Fifth
conjunct: at the start-state `illegal_control_character` site the verdict is
honoured, but no recovery consumes the character — under the all-continue
policy the parse pass ends with the input unconsumed and the machine still in
`start`. -/
theorem c4_amended_policy_handling :
    (∀ pol : Policy,
      (run_chunked pol [[48, 49]]).ec = some json_parser_errc.leading_zero ∧
      (run_chunked pol [[116, 120]]).ec = some json_parser_errc.invalid_value ∧
      (run_chunked pol [[49, 120]]).ec = some json_parser_errc.invalid_number ∧
      (run_chunked pol [[45, 120]]).ec = some json_parser_errc.expected_value ∧
      (run_chunked pol [[34, 92, 120]]).ec
        = some json_parser_errc.illegal_escaped_character) ∧
    ((run_chunked abort_all [[34, 92, 117, 68, 56, 48, 48, 120]]).ec
        = some json_parser_errc.expected_codepoint_surrogate_pair ∧
      (run_chunked continue_all [[34, 92, 117, 68, 56, 48, 48, 120]]).ec
        = some json_parser_errc.expected_codepoint_surrogate_pair) ∧
    ((run_chunked abort_all [[91, 49, 44, 93]]).ec
        = some json_parser_errc.extra_comma ∧
      (run_chunked abort_all [[91]]).ec = some json_parser_errc.unexpected_eof ∧
      (check_done abort_all (set_source [50] (run_chunked abort_all [[49]]))).ec
        = some json_parser_errc.extra_character ∧
      (run_chunked abort_all [[34, 9, 34]]).ec
        = some json_parser_errc.illegal_character_in_string ∧
      (run_chunked abort_all [[91, 39, 93]]).ec
        = some json_parser_errc.single_quote ∧
      (run_chunked abort_all [[123, 49, 125]]).ec
        = some json_parser_errc.expected_name) ∧
    ((run_chunked continue_all [[91, 49, 44, 93]]).ec = none ∧
      (run_chunked continue_all [[91, 49, 44, 93]]).events
        = [json_event.begin_json, json_event.begin_array,
            json_event.uinteger_value 1, json_event.end_array,
            json_event.end_json] ∧
      (run_with_cap 1 continue_all [91, 93]).ec = none ∧
      (run_with_cap 1 continue_all [91, 93]).events
        = [json_event.begin_json, json_event.begin_array, json_event.end_array,
            json_event.end_json] ∧
      (run_chunked continue_all [[91]]).ec = none ∧
      (check_done continue_all (set_source [50] (run_chunked abort_all [[49]]))).ec
        = none ∧
      (run_chunked continue_all [[34, 9, 34]]).ec = none ∧
      (run_chunked continue_all [[34, 9, 34]]).events
        = [json_event.begin_json, json_event.string_value [9],
            json_event.end_json] ∧
      (run_chunked continue_all [[91, 39, 93]]).ec = none ∧
      (run_chunked continue_all [[91, 39, 93]]).events
        = [json_event.begin_json, json_event.begin_array, json_event.end_array,
            json_event.end_json] ∧
      (run_chunked continue_all [[123, 49, 125]]).ec = none ∧
      (run_chunked continue_all [[123, 49, 125]]).events
        = [json_event.begin_json, json_event.begin_object, json_event.end_object,
            json_event.end_json]) ∧
    ((parse_all continue_all (set_source [1, 49] init_state)).ec = none ∧
      (parse_all continue_all (set_source [1, 49] init_state)).state
        = parse_state.start ∧
      (parse_all continue_all (set_source [1, 49] init_state)).input = [1, 49]) := by
  refine ⟨fun pol => ⟨rfl, rfl, rfl, rfl, rfl⟩, ?_, ?_, ?_, ?_⟩
  · exact ⟨by decide, by decide⟩
  · exact ⟨by decide, by decide, by decide, by decide, by decide, by decide⟩
  · exact ⟨by decide, by decide, by decide, by decide, by decide, by decide,
      by decide, by decide, by decide, by decide, by decide, by decide⟩
  · exact ⟨by decide, by decide, by decide⟩

/-- Claim C6 (counterexample): with depth cap 1, the document "[]" has maximum
nesting depth 1, which does not exceed the cap, yet the parser reports
`max_depth_exceeded`: the source tests `++nesting_depth_ >= max_depth_`, so
the error fires already when the depth reaches the cap. -/
theorem c6_error_at_cap_not_exceeded :
    (run_with_cap 1 abort_all [91, 93]).ec = some json_parser_errc.max_depth_exceeded :=
  by decide

/-- Claim C7: parsing `{"a":01}` with a policy that aborts on every error
writes `leading_zero` with the context at line 1, column 7, and no numeric
event is emitted (the events are exactly `begin_json`, `begin_object`,
`name "a"`). -/
theorem c7_leading_zero_context :
    (run_chunked abort_all [[123, 34, 97, 34, 58, 48, 49, 125]]).ec =
      some json_parser_errc.leading_zero ∧
    (run_chunked abort_all [[123, 34, 97, 34, 58, 48, 49, 125]]).line = 1 ∧
    (run_chunked abort_all [[123, 34, 97, 34, 58, 48, 49, 125]]).column = 7 ∧
    (run_chunked abort_all [[123, 34, 97, 34, 58, 48, 49, 125]]).events =
      [json_event.begin_json, json_event.begin_object, json_event.name [97]] ∧
    ((run_chunked abort_all [[123, 34, 97, 34, 58, 48, 49, 125]]).events.all
      fun e => !is_numeric_event e) = true :=
  ⟨by decide, by decide, by decide, by decide, by decide⟩

/-- Claim C8 (code-bug evaluation): on the input `"\uZ000"`, where `Z` stands
in the first hex-digit position of a `\uXXXX` escape, the parser reports
`expected_value`, not `invalid_hex_escape_sequence`: `append_codepoint`'s
default branch reports `expected_value`, and the `invalid_hex_escape_sequence`
branch inside `append_to_codepoint` is unreachable because only hex digits are
ever passed to it. -/
theorem c8_nonhex_escape_reports_expected_value :
    (run_chunked abort_all [[34, 92, 117, 90, 48, 48, 48, 34]]).ec =
      some json_parser_errc.expected_value ∧
    (run_chunked abort_all [[34, 92, 117, 90, 48, 48, 48, 34]]).ec ≠
      some json_parser_errc.invalid_hex_escape_sequence :=
  ⟨by decide, by decide⟩

/-- Claim C9 (counterexample): after feeding empty input the machine is still
in the `start` state, and `end_parse` writes nothing — its guard explicitly
excludes `start` (and `done`) from the `unexpected_eof` report.  The claim
says `end_parse` reports `unexpected_eof` here. -/
theorem c9_end_parse_start_state_silent :
    (end_parse abort_all (parse_all abort_all (set_source [] init_state))).ec = none :=
  by decide

/-- Claim C9 (amended): on empty input `end_parse` reports nothing because the
state is still `start`; the `unexpected_eof` for an empty document is instead
reported by `check_done`, whose guard only excepts `done`. -/
theorem c9_amended_empty_input :
    (end_parse abort_all (parse_all abort_all (set_source [] init_state))).ec = none ∧
    (check_done abort_all (parse_all abort_all (set_source [] init_state))).ec =
      some json_parser_errc.unexpected_eof :=
  ⟨by decide, by decide⟩

/-- Claim C10: `reset` sets the stack to exactly the root sentinel, the state
to `start`, line and column to 1 and the nesting depth to 0, and leaves every
other field — `string_buffer`, `is_negative`, `precision`, `cp`, `cp2` and the
input span — untouched; concretely, the digits "12" buffered before `reset`
survive it, so parsing "3" after the reset emits `uinteger_value 123`. -/
theorem c10_reset_effect :
    (∀ s : JState,
      reset s =
        { s with
          state_stack := [parse_state.root]
          state := parse_state.start
          line := 1
          column := 1
          nesting_depth := 0 }) ∧
    (end_parse abort_all (parse_all abort_all (set_source [51]
        (reset (parse_all abort_all (set_source [49, 50] init_state)))))).events =
      [json_event.begin_json, json_event.begin_json, json_event.uinteger_value 123,
        json_event.end_json] ∧
    (end_parse abort_all (parse_all abort_all (set_source [51]
        (reset (parse_all abort_all (set_source [49, 50] init_state)))))).ec = none :=
  ⟨fun _ => rfl, by decide, by decide⟩

end jsoncons

namespace jsoncons

theorem end_integer_value_root (pol : Policy) (s : JState)
    (h : parent s = parse_state.root) :
    ∃ ev, is_numeric_event ev = true ∧
      end_integer_value pol s =
        { s with events := s.events ++ [ev, json_event.end_json],
                 state := parse_state.done, string_buffer := [], is_negative := false } := by
  unfold end_integer_value
  rw [parent, List.headD_eq_head?] at h
  cases hn : s.is_negative
  · cases ht : try_string_to_uinteger s.string_buffer with
    | none =>
      refine ⟨json_event.double_value s.string_buffer s.is_negative
        (s.string_buffer.length % 256), rfl, ?_⟩
      simp [emit, parent, h, hn, ht]
    | some d =>
      refine ⟨json_event.uinteger_value d, rfl, ?_⟩
      simp [emit, parent, h, hn, ht]
  · cases ht : try_string_to_integer true s.string_buffer with
    | none =>
      refine ⟨json_event.double_value s.string_buffer s.is_negative
        (s.string_buffer.length % 256), rfl, ?_⟩
      simp [emit, parent, h, hn, ht]
    | some d =>
      refine ⟨json_event.integer_value d, rfl, ?_⟩
      simp [emit, parent, h, hn, ht]

theorem end_fraction_value_root (pol : Policy) (s : JState)
    (h : parent s = parse_state.root) :
    end_fraction_value pol s =
      { s with
        events := s.events ++
          [json_event.double_value s.string_buffer s.is_negative (s.precision % 256),
            json_event.end_json],
        state := parse_state.done, string_buffer := [], is_negative := false } := by
  unfold end_fraction_value
  rw [parent, List.headD_eq_head?] at h
  simp [emit, parent, h]

theorem end_parse_flush_of_integerish (pol : Policy) (s : JState)
    (hroot : parent s = parse_state.root)
    (hzi : s.state = parse_state.zero ∨ s.state = parse_state.integer) :
    end_parse_flush pol s = end_integer_value pol s := by
  unfold end_parse_flush
  rw [if_pos hroot, if_pos hzi]

theorem end_parse_flush_of_fractionish (pol : Policy) (s : JState)
    (hroot : parent s = parse_state.root)
    (hfe : s.state = parse_state.fraction2 ∨ s.state = parse_state.exp3) :
    end_parse_flush pol s = end_fraction_value pol s := by
  unfold end_parse_flush
  have hzi : ¬(s.state = parse_state.zero ∨ s.state = parse_state.integer) := by
    rcases hfe with h | h <;> simp [h]
  rw [if_pos hroot, if_neg hzi, if_pos hfe]

theorem end_parse_flush_of_no_flush (pol : Policy) (s : JState)
    (h : ¬(parent s = parse_state.root ∧
      (s.state = parse_state.zero ∨ s.state = parse_state.integer ∨
        s.state = parse_state.fraction2 ∨ s.state = parse_state.exp3))) :
    end_parse_flush pol s = s := by
  unfold end_parse_flush
  split_ifs with h1 h2 h3
  · exact absurd ⟨h1, by tauto⟩ h
  · exact absurd ⟨h1, by tauto⟩ h
  · rfl
  · rfl

theorem end_parse_pop_events (s : JState) : (end_parse_pop s).events = s.events := by
  unfold end_parse_pop pop_state
  split_ifs <;> cases s.state_stack <;> rfl

theorem end_parse_pop_ec (s : JState) : (end_parse_pop s).ec = s.ec := by
  unfold end_parse_pop pop_state
  split_ifs <;> cases s.state_stack <;> rfl

theorem c5_no_flush_aux (pol : Policy) (s : JState) (hec : s.ec = none)
    (hpol : ∀ l c, pol json_parser_errc.unexpected_eof l c = true)
    (hnf : ¬(parent s = parse_state.root ∧
      (s.state = parse_state.zero ∨ s.state = parse_state.integer ∨
        s.state = parse_state.fraction2 ∨ s.state = parse_state.exp3))) :
    ((∃ e ∈ new_events s (end_parse pol s), is_numeric_event e = true) ↔
      (parent s = parse_state.root ∧
        (s.state = parse_state.zero ∨ s.state = parse_state.integer ∨
          s.state = parse_state.fraction2 ∨ s.state = parse_state.exp3))) ∧
    ((end_parse pol s).ec = some json_parser_errc.unexpected_eof ↔
      ¬((end_parse_pop (end_parse_flush pol s)).state = parse_state.done ∨
        (end_parse_pop (end_parse_flush pol s)).state = parse_state.start)) := by
  have hflush := end_parse_flush_of_no_flush pol s hnf
  have hep : end_parse pol s =
      (if (end_parse_pop s).state = parse_state.done ∨
          (end_parse_pop s).state = parse_state.start
        then end_parse_pop s
        else report pol json_parser_errc.unexpected_eof (end_parse_pop s)) := by
    unfold end_parse
    rw [hflush]
    simp [hec]
  by_cases hds : (end_parse_pop s).state = parse_state.done ∨
      (end_parse_pop s).state = parse_state.start
  · rw [if_pos hds] at hep
    constructor
    · rw [hep]
      constructor
      · rintro ⟨e, he, -⟩
        rw [new_events, end_parse_pop_events, List.drop_length] at he
        simp at he
      · intro hc
        exact absurd hc hnf
    · rw [hep, hflush]
      constructor
      · intro hc
        rw [end_parse_pop_ec, hec] at hc
        simp at hc
      · intro hc
        exact absurd hds hc
  · rw [if_neg hds] at hep
    have hrep : report pol json_parser_errc.unexpected_eof (end_parse_pop s) =
        { end_parse_pop s with ec := some json_parser_errc.unexpected_eof } := by
      unfold report
      rw [if_pos (hpol _ _)]
    constructor
    · rw [hep, hrep]
      constructor
      · rintro ⟨e, he, -⟩
        rw [new_events] at he
        simp only [end_parse_pop_events] at he
        rw [List.drop_length] at he
        simp at he
      · intro hc
        exact absurd hc hnf
    · rw [hep, hrep, hflush]
      simp [hds]

/-- Claim C5: `end_parse` flushes a pending number — emitting the
corresponding numeric event — exactly when the machine state is `zero`,
`integer`, `fraction2` or `exp3` and the parent frame is the root sentinel
(so a pending number inside an array or object is not flushed); and, the
flushing and `lf`/`cr` unwinding done, it reports `unexpected_eof` (here: the
policy aborts on it and the code is written) if and only if the resulting
state is neither `done` nor `start`. -/
theorem c5_end_parse_number_flush (pol : Policy) (s : JState) (hec : s.ec = none)
    (hpol : ∀ l c, pol json_parser_errc.unexpected_eof l c = true) :
    ((∃ e ∈ new_events s (end_parse pol s), is_numeric_event e = true) ↔
      (parent s = parse_state.root ∧
        (s.state = parse_state.zero ∨ s.state = parse_state.integer ∨
          s.state = parse_state.fraction2 ∨ s.state = parse_state.exp3))) ∧
    ((end_parse pol s).ec = some json_parser_errc.unexpected_eof ↔
      ¬((end_parse_pop (end_parse_flush pol s)).state = parse_state.done ∨
        (end_parse_pop (end_parse_flush pol s)).state = parse_state.start)) := by
  by_cases hroot : parent s = parse_state.root
  · by_cases hzi : s.state = parse_state.zero ∨ s.state = parse_state.integer
    · obtain ⟨ev, hev, heq⟩ := end_integer_value_root pol s hroot
      have hflush := end_parse_flush_of_integerish pol s hroot hzi
      have hep : end_parse pol s = end_integer_value pol s := by
        unfold end_parse
        rw [hflush, heq]
        simp [end_parse_pop, hec]
      constructor
      · constructor
        · intro _
          exact ⟨hroot, by tauto⟩
        · intro _
          refine ⟨ev, ?_, hev⟩
          rw [hep, heq, new_events]
          simp [List.drop_left]
      · rw [hep, hflush, heq]
        simp [end_parse_pop, hec]
    · by_cases hfe : s.state = parse_state.fraction2 ∨ s.state = parse_state.exp3
      · have heq := end_fraction_value_root pol s hroot
        have hflush := end_parse_flush_of_fractionish pol s hroot hfe
        have hep : end_parse pol s = end_fraction_value pol s := by
          unfold end_parse
          rw [hflush, heq]
          simp [end_parse_pop, hec]
        constructor
        · constructor
          · intro _
            exact ⟨hroot, by tauto⟩
          · intro _
            refine ⟨json_event.double_value s.string_buffer s.is_negative
              (s.precision % 256), ?_, rfl⟩
            rw [hep, heq, new_events]
            simp [List.drop_left]
        · rw [hep, hflush, heq]
          simp [end_parse_pop, hec]
      · exact c5_no_flush_aux pol s hec hpol (by tauto)
  · exact c5_no_flush_aux pol s hec hpol (by tauto)

/-- Claim C5 witness: the theorem instantiated at a concrete pending-number
state (state `integer`, buffer "7", parent root) under the abort-all policy. -/
theorem c5_end_parse_number_flush_witness :
    ((∃ e ∈ new_events { init_state with state := parse_state.integer, string_buffer := [55] }
        (end_parse abort_all
          { init_state with state := parse_state.integer, string_buffer := [55] }),
      is_numeric_event e = true) ↔
      (parent { init_state with state := parse_state.integer, string_buffer := [55] } =
          parse_state.root ∧
        ({ init_state with state := parse_state.integer, string_buffer := [55] }.state =
            parse_state.zero ∨
          { init_state with state := parse_state.integer, string_buffer := [55] }.state =
            parse_state.integer ∨
          { init_state with state := parse_state.integer, string_buffer := [55] }.state =
            parse_state.fraction2 ∨
          { init_state with state := parse_state.integer, string_buffer := [55] }.state =
            parse_state.exp3))) ∧
    ((end_parse abort_all
        { init_state with state := parse_state.integer, string_buffer := [55] }).ec =
        some json_parser_errc.unexpected_eof ↔
      ¬((end_parse_pop (end_parse_flush abort_all
          { init_state with state := parse_state.integer, string_buffer := [55] })).state =
          parse_state.done ∨
        (end_parse_pop (end_parse_flush abort_all
          { init_state with state := parse_state.integer, string_buffer := [55] })).state =
          parse_state.start)) :=
  c5_end_parse_number_flush abort_all
    { init_state with state := parse_state.integer, string_buffer := [55] } rfl
    (fun _ _ => rfl)

end jsoncons

namespace jsoncons

theorem foldl_dec_ge (ds : List Nat) : ∀ a : Nat,
    a ≤ ds.foldl (fun a c => a * 10 + (c - 48)) a := by
  induction ds with
  | nil => intro a; simp
  | cons c r ih =>
    intro a
    have h := ih (a * 10 + (c - 48))
    simp only [List.foldl_cons]
    omega

theorem tsu_loop_eq (ds : List Nat) : ∀ a : Nat,
    (∀ c ∈ ds, 48 ≤ c ∧ c ≤ 57) → a ≤ u64_max →
    tsu_loop a ds =
      if ds.foldl (fun a c => a * 10 + (c - 48)) a ≤ u64_max then
        some (ds.foldl (fun a c => a * 10 + (c - 48)) a)
      else none := by
  have hmax : u64_max = 18446744073709551615 := by norm_num [u64_max]
  have hdiv : u64_max_div_10 = 1844674407370955161 := by
    norm_num [u64_max_div_10, u64_max]
  have hpow : (2 : Nat) ^ 64 = 18446744073709551616 := by norm_num
  induction ds with
  | nil =>
    intro a _ ha
    simp [tsu_loop, ha]
  | cons c r ih =>
    intro a hd ha
    obtain ⟨hc1, hc2⟩ := hd c (by simp)
    have hx : (c + 2 ^ 64 - 48) % 2 ^ 64 = c - 48 := by omega
    have hge := foldl_dec_ge r (a * 10 + (c - 48))
    simp only [tsu_loop, hx, List.foldl_cons]
    by_cases h1 : u64_max_div_10 < a
    · rw [if_pos h1, if_neg (by omega)]
    · rw [if_neg h1]
      have hn1 : a * 10 % 2 ^ 64 = a * 10 := by omega
      rw [hn1]
      by_cases h2 : u64_max - (c - 48) < a * 10
      · rw [if_pos h2, if_neg (by omega)]
      · rw [if_neg h2]
        have hred : (a * 10 + (c - 48)) % 2 ^ 64 = a * 10 + (c - 48) := by omega
        rw [hred]
        exact ih (a * 10 + (c - 48)) (fun d hdd => hd d (by simp [hdd])) (by omega)

theorem try_string_to_uinteger_eq (ds : List Nat) (hd : ∀ c ∈ ds, 48 ≤ c ∧ c ≤ 57) :
    try_string_to_uinteger ds =
      if dec_value ds ≤ u64_max then some (dec_value ds) else none := by
  have := tsu_loop_eq ds 0 hd (by norm_num [u64_max])
  simpa [try_string_to_uinteger, dec_value] using this

end jsoncons

namespace jsoncons

theorem foldl_negdec_le (ds : List Nat) : ∀ a : Int,
    (∀ c ∈ ds, 48 ≤ c ∧ c ≤ 57) → a ≤ 0 →
    ds.foldl (fun (a : Int) (c : Nat) => a * 10 - ((c : Int) - 48)) a ≤ a := by
  induction ds with
  | nil => intro a _ _; simp
  | cons c r ih =>
    intro a hd ha
    obtain ⟨hc1, hc2⟩ := hd c (by simp)
    have h := ih (a * 10 - ((c : Int) - 48)) (fun d hdd => hd d (by simp [hdd]))
      (by omega)
    simp only [List.foldl_cons]
    omega

theorem tsi_neg_loop_eq (ds : List Nat) : ∀ a : Int,
    (∀ c ∈ ds, 48 ≤ c ∧ c ≤ 57) → i64_min ≤ a → a ≤ 0 →
    tsi_neg_loop a ds =
      if i64_min ≤ ds.foldl (fun (a : Int) (c : Nat) => a * 10 - ((c : Int) - 48)) a then
        some (ds.foldl (fun (a : Int) (c : Nat) => a * 10 - ((c : Int) - 48)) a)
      else none := by
  have hmin : i64_min = -9223372036854775808 := by norm_num [i64_min]
  have hdiv : i64_min_div_10 = -922337203685477580 := by decide
  induction ds with
  | nil =>
    intro a _ ha _
    simp [tsi_neg_loop, ha]
  | cons c r ih =>
    intro a hd ha ha0
    obtain ⟨hc1, hc2⟩ := hd c (by simp)
    have hrd : ∀ d ∈ r, 48 ≤ d ∧ d ≤ 57 := fun d hdd => hd d (by simp [hdd])
    have hle := foldl_negdec_le r (a * 10 - ((c : Int) - 48)) hrd (by omega)
    simp only [tsi_neg_loop, List.foldl_cons]
    by_cases h1 : a < i64_min_div_10
    · rw [if_pos h1, if_neg (by omega)]
    · rw [if_neg h1]
      by_cases h2 : a * 10 < i64_min + ((c : Int) - 48)
      · rw [if_pos h2, if_neg (by omega)]
      · rw [if_neg h2]
        exact ih (a * 10 - ((c : Int) - 48)) hrd (by omega) (by omega)

theorem foldl_negdec_eq_neg (ds : List Nat) : ∀ (a : Nat) (b : Int),
    (∀ c ∈ ds, 48 ≤ c ∧ c ≤ 57) → b = -(a : Int) →
    ds.foldl (fun (a : Int) (c : Nat) => a * 10 - ((c : Int) - 48)) b =
      -((ds.foldl (fun a c => a * 10 + (c - 48)) a : Nat) : Int) := by
  induction ds with
  | nil => intro a b _ hb; simpa using hb
  | cons c r ih =>
    intro a b hd hb
    obtain ⟨hc1, hc2⟩ := hd c (by simp)
    simp only [List.foldl_cons]
    refine ih (a * 10 + (c - 48)) (b * 10 - ((c : Int) - 48))
      (fun d hdd => hd d (by simp [hdd])) ?_
    push_cast [Nat.cast_sub hc1]
    omega

theorem try_string_to_integer_neg_eq (ds : List Nat)
    (hd : ∀ c ∈ ds, 48 ≤ c ∧ c ≤ 57) :
    try_string_to_integer true ds =
      if (dec_value ds : Int) ≤ 2 ^ 63 then some (-(dec_value ds : Int)) else none := by
  have h1 := tsi_neg_loop_eq ds 0 hd (by norm_num [i64_min]) le_rfl
  have h2 := foldl_negdec_eq_neg ds 0 0 hd (by norm_num)
  have hmin : i64_min = -9223372036854775808 := by norm_num [i64_min]
  have hds : ds.foldl (fun (a : Int) (c : Nat) => a * 10 - ((c : Int) - 48)) 0 =
      -((dec_value ds : Nat) : Int) := h2
  rw [show try_string_to_integer true ds = tsi_neg_loop 0 ds from rfl, h1, hds]
  by_cases hv : (dec_value ds : Int) ≤ 2 ^ 63
  · rw [if_pos (by rw [hmin]; omega), if_pos hv]
  · rw [if_neg (by rw [hmin]; omega), if_neg hv]

end jsoncons

namespace jsoncons

theorem end_integer_value_root_uint (pol : Policy) (s : JState)
    (hroot : parent s = parse_state.root) (hneg : s.is_negative = false)
    (hd : ∀ c ∈ s.string_buffer, 48 ≤ c ∧ c ≤ 57)
    (hv : dec_value s.string_buffer ≤ u64_max) :
    end_integer_value pol s =
      { s with
        events := s.events ++
          [json_event.uinteger_value (dec_value s.string_buffer), json_event.end_json],
        state := parse_state.done, string_buffer := [], is_negative := false } := by
  have ht := try_string_to_uinteger_eq s.string_buffer hd
  rw [if_pos hv] at ht
  unfold end_integer_value
  rw [parent, List.headD_eq_head?] at hroot
  simp [emit, parent, hneg, ht, hroot]

theorem end_integer_value_root_uint_overflow (pol : Policy) (s : JState)
    (hroot : parent s = parse_state.root) (hneg : s.is_negative = false)
    (hd : ∀ c ∈ s.string_buffer, 48 ≤ c ∧ c ≤ 57)
    (hv : u64_max < dec_value s.string_buffer) :
    end_integer_value pol s =
      { s with
        events := s.events ++
          [json_event.double_value s.string_buffer false (s.string_buffer.length % 256),
            json_event.end_json],
        state := parse_state.done, string_buffer := [], is_negative := false } := by
  have ht := try_string_to_uinteger_eq s.string_buffer hd
  rw [if_neg (by omega)] at ht
  unfold end_integer_value
  rw [parent, List.headD_eq_head?] at hroot
  simp [emit, parent, hneg, ht, hroot]

theorem end_integer_value_root_int (pol : Policy) (s : JState)
    (hroot : parent s = parse_state.root) (hneg : s.is_negative = true)
    (hd : ∀ c ∈ s.string_buffer, 48 ≤ c ∧ c ≤ 57)
    (hv : (dec_value s.string_buffer : Int) ≤ 2 ^ 63) :
    end_integer_value pol s =
      { s with
        events := s.events ++
          [json_event.integer_value (-(dec_value s.string_buffer : Int)),
            json_event.end_json],
        state := parse_state.done, string_buffer := [], is_negative := false } := by
  have ht := try_string_to_integer_neg_eq s.string_buffer hd
  rw [if_pos hv] at ht
  unfold end_integer_value
  rw [parent, List.headD_eq_head?] at hroot
  simp [emit, parent, hneg, ht, hroot]

theorem end_integer_value_root_int_overflow (pol : Policy) (s : JState)
    (hroot : parent s = parse_state.root) (hneg : s.is_negative = true)
    (hd : ∀ c ∈ s.string_buffer, 48 ≤ c ∧ c ≤ 57)
    (hv : (2 ^ 63 : Int) < (dec_value s.string_buffer : Int)) :
    end_integer_value pol s =
      { s with
        events := s.events ++
          [json_event.double_value s.string_buffer true (s.string_buffer.length % 256),
            json_event.end_json],
        state := parse_state.done, string_buffer := [], is_negative := false } := by
  have ht := try_string_to_integer_neg_eq s.string_buffer hd
  rw [if_neg (by omega)] at ht
  unfold end_integer_value
  rw [parent, List.headD_eq_head?] at hroot
  simp [emit, parent, hneg, ht, hroot]

end jsoncons

namespace jsoncons

theorem parse_number_integer_digits (pol : Policy) (ds : List Nat) :
    ∀ (fuel : Nat) (s : JState), ds.length < fuel →
    (∀ c ∈ ds, 48 ≤ c ∧ c ≤ 57) → s.state = parse_state.integer → s.input = ds →
    parse_number pol fuel s =
      { s with input := [], string_buffer := s.string_buffer ++ ds,
               column := s.column + ds.length } := by
  induction ds with
  | nil =>
    intro fuel s hfuel _ hst hin
    cases fuel with
    | zero => omega
    | succ f =>
      simp only [parse_number, hst, hin]
      cases s
      simp_all
  | cons c r ih =>
    intro fuel s hfuel hd hst hin
    obtain ⟨hc1, hc2⟩ := hd c (by simp)
    cases fuel with
    | zero => simp at hfuel
    | succ f =>
      simp only [parse_number, hst, hin]
      rw [if_neg (by omega : ¬c = 13), if_neg (by omega : ¬c = 10),
        if_neg (by omega : ¬(c = 32 ∨ c = 9)), if_neg (by omega : ¬c = 47),
        if_neg (by omega : ¬c = 125), if_neg (by omega : ¬c = 93),
        if_pos (⟨hc1, hc2⟩ : 48 ≤ c ∧ c ≤ 57)]
      rw [ih f _ (by simp at hfuel ⊢; omega) (fun d hdd => hd d (by simp [hdd]))
        (by simp [hst]) rfl]
      cases s
      simp_all [List.append_assoc]
      omega

end jsoncons

namespace jsoncons

theorem parse_empty_input (pol : Policy) (fuel : Nat) (s : JState) (h : s.input = []) :
    parse pol fuel s = s := by
  cases fuel with
  | zero => rfl
  | succ f => simp [parse, h]

theorem step_start_digit19 (pol : Policy) (c : Nat) (rest : List Nat) (s : JState)
    (hc1 : 49 ≤ c) (hc2 : c ≤ 57) :
    step_start pol c rest s =
      { s with events := s.events ++ [json_event.begin_json],
               string_buffer := s.string_buffer ++ [c], state := parse_state.integer,
               input := rest, column := s.column + 1 } := by
  unfold step_start
  rw [if_neg (by unfold is_illegal_ctrl; omega), if_neg (by omega : ¬c = 13),
    if_neg (by omega : ¬c = 10), if_neg (by omega : ¬(c = 32 ∨ c = 9)),
    if_neg (by omega : ¬c = 47), if_neg (by omega : ¬c = 123),
    if_neg (by omega : ¬c = 91), if_neg (by omega : ¬c = 34),
    if_neg (by omega : ¬c = 45), if_neg (by omega : ¬c = 48),
    if_pos (⟨hc1, hc2⟩ : 49 ≤ c ∧ c ≤ 57)]
  simp [emit]

theorem step_start_minus (pol : Policy) (rest : List Nat) (s : JState) :
    step_start pol 45 rest s =
      { s with events := s.events ++ [json_event.begin_json], is_negative := true,
               state := parse_state.minus, input := rest, column := s.column + 1 } := by
  rfl

theorem parse_digits_tail (pol : Policy) (r : List Nat) (s : JState) :
    ∀ fuel : Nat, r.length + 1 < fuel → (∀ d ∈ r, 48 ≤ d ∧ d ≤ 57) →
    s.state = parse_state.integer → s.input = r → s.ec = none →
    parse pol fuel s =
      { s with input := [], string_buffer := s.string_buffer ++ r,
               column := s.column + r.length } := by
  cases r with
  | nil =>
    intro fuel _ _ _ hin _
    rw [parse_empty_input pol fuel s hin]
    cases s
    simp_all
  | cons d r' =>
    intro fuel hfuel hr hst hin hec
    cases fuel with
    | zero => omega
    | succ f =>
      have hpn := parse_number_integer_digits pol (d :: r') ((d :: r').length + 1) s
        (by omega) hr hst hin
      simp only [parse, hst, hin, parse_one, hpn, hec, Option.isSome_none,
        Bool.false_eq_true, if_false]
      rw [parse_empty_input pol f _ rfl]
      simp

theorem parse_number_minus_digits (pol : Policy) (c : Nat) (r : List Nat) :
    ∀ (fuel : Nat) (s : JState), r.length + 1 < fuel → 49 ≤ c → c ≤ 57 →
    (∀ d ∈ r, 48 ≤ d ∧ d ≤ 57) →
    s.state = parse_state.minus → s.input = c :: r →
    parse_number pol fuel s =
      { s with input := [], string_buffer := s.string_buffer ++ ([c] ++ r),
               column := s.column + (r.length + 1), state := parse_state.integer } := by
  intro fuel s hfuel hc1 hc2 hr hst hin
  cases fuel with
  | zero => omega
  | succ f =>
    simp only [parse_number, hst, hin]
    rw [if_neg (by omega : ¬c = 48), if_pos (⟨hc1, hc2⟩ : 49 ≤ c ∧ c ≤ 57)]
    rw [parse_number_integer_digits pol r f _ (by omega) hr rfl rfl]
    cases s
    simp_all [List.append_assoc]
    omega

theorem parse_minus_tail (pol : Policy) (c : Nat) (r : List Nat) (s : JState) :
    ∀ fuel : Nat, r.length + 2 < fuel → 49 ≤ c → c ≤ 57 →
    (∀ d ∈ r, 48 ≤ d ∧ d ≤ 57) →
    s.state = parse_state.minus → s.input = c :: r → s.ec = none →
    parse pol fuel s =
      { s with input := [], string_buffer := s.string_buffer ++ ([c] ++ r),
               column := s.column + (r.length + 1), state := parse_state.integer } := by
  intro fuel hfuel hc1 hc2 hr hst hin hec
  cases fuel with
  | zero => omega
  | succ f =>
    have hpn := parse_number_minus_digits pol c r ((c :: r).length + 1) s
      (by simp) hc1 hc2 hr hst hin
    simp only [parse, hst, hin, parse_one, hpn, hec, Option.isSome_none,
      Bool.false_eq_true, if_false]
    rw [parse_empty_input pol f _ rfl]
    simp

end jsoncons

namespace jsoncons

theorem parse_run_digits (pol : Policy) (c : Nat) (r : List Nat)
    (hc1 : 49 ≤ c) (hc2 : c ≤ 57) (hr : ∀ d ∈ r, 48 ≤ d ∧ d ≤ 57) :
    ∀ fuel : Nat, (c :: r).length + 2 < fuel →
    parse pol fuel (set_source (c :: r) init_state) =
      { init_state with events := [json_event.begin_json], string_buffer := c :: r,
                        state := parse_state.integer, column := 2 + r.length } := by
  intro fuel hfuel
  cases fuel with
  | zero => omega
  | succ f =>
    have hstate : (set_source (c :: r) init_state).state = parse_state.start := rfl
    have hinp : (set_source (c :: r) init_state).input = c :: r := rfl
    have hstep := step_start_digit19 pol c r (set_source (c :: r) init_state) hc1 hc2
    have hecp : (set_source (c :: r) init_state).ec = none := rfl
    simp only [parse, hstate, hinp, parse_one, hstep, hecp, Option.isSome_none,
      Bool.false_eq_true, if_false]
    rw [parse_digits_tail pol r _ f (by simp at hfuel; omega) hr rfl rfl rfl]
    simp [set_source, init_state]

theorem parse_run_neg_digits (pol : Policy) (c : Nat) (r : List Nat)
    (hc1 : 49 ≤ c) (hc2 : c ≤ 57) (hr : ∀ d ∈ r, 48 ≤ d ∧ d ≤ 57) :
    ∀ fuel : Nat, (c :: r).length + 3 < fuel →
    parse pol fuel (set_source (45 :: c :: r) init_state) =
      { init_state with events := [json_event.begin_json], string_buffer := c :: r,
                        is_negative := true, state := parse_state.integer,
                        column := 3 + r.length } := by
  intro fuel hfuel
  cases fuel with
  | zero => omega
  | succ f =>
    have hstate : (set_source (45 :: c :: r) init_state).state = parse_state.start := rfl
    have hinp : (set_source (45 :: c :: r) init_state).input = 45 :: c :: r := rfl
    have hstep := step_start_minus pol (c :: r) (set_source (45 :: c :: r) init_state)
    have hecp : (set_source (45 :: c :: r) init_state).ec = none := rfl
    simp only [parse, hstate, hinp, parse_one, hstep, hecp, Option.isSome_none,
      Bool.false_eq_true, if_false]
    rw [parse_minus_tail pol c r _ f (by simp at hfuel; omega) hc1 hc2 hr rfl rfl rfl]
    simp [set_source, init_state]
    omega

theorem run_chunked_digits (pol : Policy) (c : Nat) (r : List Nat)
    (hc1 : 49 ≤ c) (hc2 : c ≤ 57) (hr : ∀ d ∈ r, 48 ≤ d ∧ d ≤ 57) :
    run_chunked pol [c :: r] =
      end_parse pol
        { init_state with events := [json_event.begin_json], string_buffer := c :: r,
                          state := parse_state.integer, column := 2 + r.length } := by
  have hrun := parse_run_digits pol c r hc1 hc2 hr (2 * (c :: r).length + 4) (by simp; omega)
  unfold run_chunked feed_chunks parse_all
  have hlen : (set_source (c :: r) init_state).input.length = (c :: r).length := rfl
  simp only [hlen, hrun]
  rfl

theorem run_chunked_neg_digits (pol : Policy) (c : Nat) (r : List Nat)
    (hc1 : 49 ≤ c) (hc2 : c ≤ 57) (hr : ∀ d ∈ r, 48 ≤ d ∧ d ≤ 57) :
    run_chunked pol [45 :: c :: r] =
      end_parse pol
        { init_state with events := [json_event.begin_json], string_buffer := c :: r,
                          is_negative := true, state := parse_state.integer,
                          column := 3 + r.length } := by
  have hrun := parse_run_neg_digits pol c r hc1 hc2 hr (2 * (45 :: c :: r).length + 4)
    (by simp; omega)
  unfold run_chunked feed_chunks parse_all
  have hlen : (set_source (45 :: c :: r) init_state).input.length =
      (45 :: c :: r).length := rfl
  simp only [hlen, hrun]
  rfl

theorem end_parse_root_integer_uint (pol : Policy) (s : JState)
    (hroot : parent s = parse_state.root)
    (hst : s.state = parse_state.zero ∨ s.state = parse_state.integer)
    (hneg : s.is_negative = false)
    (hd : ∀ x ∈ s.string_buffer, 48 ≤ x ∧ x ≤ 57)
    (hv : dec_value s.string_buffer ≤ u64_max) (hec : s.ec = none) :
    end_parse pol s =
      { s with
        events := s.events ++
          [json_event.uinteger_value (dec_value s.string_buffer), json_event.end_json],
        state := parse_state.done, string_buffer := [], is_negative := false } := by
  have hflush := end_parse_flush_of_integerish pol s hroot hst
  rw [end_integer_value_root_uint pol s hroot hneg hd hv] at hflush
  unfold end_parse
  rw [hflush]
  simp [end_parse_pop, hec]

theorem end_parse_root_integer_uint_overflow (pol : Policy) (s : JState)
    (hroot : parent s = parse_state.root)
    (hst : s.state = parse_state.zero ∨ s.state = parse_state.integer)
    (hneg : s.is_negative = false)
    (hd : ∀ x ∈ s.string_buffer, 48 ≤ x ∧ x ≤ 57)
    (hv : u64_max < dec_value s.string_buffer) (hec : s.ec = none) :
    end_parse pol s =
      { s with
        events := s.events ++
          [json_event.double_value s.string_buffer false (s.string_buffer.length % 256),
            json_event.end_json],
        state := parse_state.done, string_buffer := [], is_negative := false } := by
  have hflush := end_parse_flush_of_integerish pol s hroot hst
  rw [end_integer_value_root_uint_overflow pol s hroot hneg hd hv] at hflush
  unfold end_parse
  rw [hflush]
  simp [end_parse_pop, hec]

theorem end_parse_root_integer_int (pol : Policy) (s : JState)
    (hroot : parent s = parse_state.root)
    (hst : s.state = parse_state.zero ∨ s.state = parse_state.integer)
    (hneg : s.is_negative = true)
    (hd : ∀ x ∈ s.string_buffer, 48 ≤ x ∧ x ≤ 57)
    (hv : (dec_value s.string_buffer : Int) ≤ 2 ^ 63) (hec : s.ec = none) :
    end_parse pol s =
      { s with
        events := s.events ++
          [json_event.integer_value (-(dec_value s.string_buffer : Int)),
            json_event.end_json],
        state := parse_state.done, string_buffer := [], is_negative := false } := by
  have hflush := end_parse_flush_of_integerish pol s hroot hst
  rw [end_integer_value_root_int pol s hroot hneg hd hv] at hflush
  unfold end_parse
  rw [hflush]
  simp [end_parse_pop, hec]

theorem end_parse_root_integer_int_overflow (pol : Policy) (s : JState)
    (hroot : parent s = parse_state.root)
    (hst : s.state = parse_state.zero ∨ s.state = parse_state.integer)
    (hneg : s.is_negative = true)
    (hd : ∀ x ∈ s.string_buffer, 48 ≤ x ∧ x ≤ 57)
    (hv : (2 ^ 63 : Int) < (dec_value s.string_buffer : Int)) (hec : s.ec = none) :
    end_parse pol s =
      { s with
        events := s.events ++
          [json_event.double_value s.string_buffer true (s.string_buffer.length % 256),
            json_event.end_json],
        state := parse_state.done, string_buffer := [], is_negative := false } := by
  have hflush := end_parse_flush_of_integerish pol s hroot hst
  rw [end_integer_value_root_int_overflow pol s hroot hneg hd hv] at hflush
  unfold end_parse
  rw [hflush]
  simp [end_parse_pop, hec]

end jsoncons

namespace jsoncons

/-- Claim C3: for every canonical unsigned decimal integer literal whose value
fits `uint64_t`, the parser emits a `uinteger_value` event equal to that
value; for every negative literal whose value lies in `[-2^63, -1]`, it emits
an `integer_value` event equal to that value; and for integer literals outside
these ranges it emits a `double_value` event (carrying the digit text, the
sign and the precision byte) instead.  The runs are full `set_source` +
`parse` + `end_parse` executions from a fresh parser with the abort-all
policy. -/
theorem c3_integer_literal_ranges (ds : List Nat) (h : good_digits ds) :
    (dec_value ds ≤ u64_max →
      (run_chunked abort_all [ds]).events =
        [json_event.begin_json, json_event.uinteger_value (dec_value ds),
          json_event.end_json] ∧
      (run_chunked abort_all [ds]).ec = none) ∧
    (u64_max < dec_value ds →
      (run_chunked abort_all [ds]).events =
        [json_event.begin_json, json_event.double_value ds false (ds.length % 256),
          json_event.end_json] ∧
      (run_chunked abort_all [ds]).ec = none) ∧
    (1 ≤ dec_value ds → dec_value ds ≤ 2 ^ 63 →
      (run_chunked abort_all [45 :: ds]).events =
        [json_event.begin_json, json_event.integer_value (-(dec_value ds : Int)),
          json_event.end_json] ∧
      (run_chunked abort_all [45 :: ds]).ec = none) ∧
    (2 ^ 63 < dec_value ds →
      (run_chunked abort_all [45 :: ds]).events =
        [json_event.begin_json, json_event.double_value ds true (ds.length % 256),
          json_event.end_json] ∧
      (run_chunked abort_all [45 :: ds]).ec = none) := by
  obtain ⟨hne, hd, hlead⟩ := h
  rcases ds with _ | ⟨c, r⟩
  · exact absurd rfl hne
  by_cases hc48 : c = 48
  · have hr0 : r = [] := by
      cases r with
      | nil => rfl
      | cons d r' =>
        exact absurd (by simp [hc48] : (c :: d :: r').head? = some 48)
          (hlead (by simp))
    subst hc48
    subst hr0
    refine ⟨?_, ?_, ?_, ?_⟩
    · intro _
      exact ⟨by decide, by decide⟩
    · intro hv
      exact absurd hv (by decide)
    · intro hv
      exact absurd hv (by decide)
    · intro hv
      exact absurd hv (by decide)
  · have hc1 : 49 ≤ c := by
      have := (hd c (by simp)).1
      omega
    have hc2 : c ≤ 57 := (hd c (by simp)).2
    have hr : ∀ d ∈ r, 48 ≤ d ∧ d ≤ 57 := fun d hdd => hd d (by simp [hdd])
    refine ⟨?_, ?_, ?_, ?_⟩
    · intro hv
      have hend := end_parse_root_integer_uint abort_all
        { init_state with events := [json_event.begin_json], string_buffer := c :: r,
                          state := parse_state.integer, column := 2 + r.length }
        rfl (Or.inr rfl) rfl hd hv rfl
      rw [run_chunked_digits abort_all c r hc1 hc2 hr, hend]
      exact ⟨by simp, rfl⟩
    · intro hv
      have hend := end_parse_root_integer_uint_overflow abort_all
        { init_state with events := [json_event.begin_json], string_buffer := c :: r,
                          state := parse_state.integer, column := 2 + r.length }
        rfl (Or.inr rfl) rfl hd hv rfl
      rw [run_chunked_digits abort_all c r hc1 hc2 hr, hend]
      exact ⟨by simp, rfl⟩
    · intro _ hv
      have hend := end_parse_root_integer_int abort_all
        { init_state with events := [json_event.begin_json], string_buffer := c :: r,
                          is_negative := true, state := parse_state.integer,
                          column := 3 + r.length }
        rfl (Or.inr rfl) rfl hd (by push_cast; omega) rfl
      rw [run_chunked_neg_digits abort_all c r hc1 hc2 hr, hend]
      exact ⟨by simp, rfl⟩
    · intro hv
      have hend := end_parse_root_integer_int_overflow abort_all
        { init_state with events := [json_event.begin_json], string_buffer := c :: r,
                          is_negative := true, state := parse_state.integer,
                          column := 3 + r.length }
        rfl (Or.inr rfl) rfl hd (by push_cast; omega) rfl
      rw [run_chunked_neg_digits abort_all c r hc1 hc2 hr, hend]
      exact ⟨by simp, rfl⟩

/-- Claim C3 witness: the theorem applied to the literal "51" (value 51, in
the `uint64_t` range) and to "-51" (value -51, in the signed range). -/
theorem c3_integer_literal_ranges_witness :
    good_digits [53, 49] ∧
    (run_chunked abort_all [[53, 49]]).events =
      [json_event.begin_json, json_event.uinteger_value (dec_value [53, 49]),
        json_event.end_json] ∧
    (run_chunked abort_all [[45, 53, 49]]).events =
      [json_event.begin_json, json_event.integer_value (-(dec_value [53, 49] : Int)),
        json_event.end_json] :=
  ⟨by decide,
    ((c3_integer_literal_ranges [53, 49] (by decide)).1 (by decide)).1,
    (((c3_integer_literal_ranges [53, 49] (by decide)).2.2.1 (by decide) (by decide)).1)⟩

end jsoncons

namespace jsoncons

theorem parse_done (pol : Policy) (fuel : Nat) (s : JState)
    (h : s.state = parse_state.done) : parse pol fuel s = s := by
  cases fuel with
  | zero => rfl
  | succ f => simp [parse, h]

theorem end_parse_of_done (pol : Policy) (s : JState)
    (hst : s.state = parse_state.done) (hec : s.ec = none) : end_parse pol s = s := by
  unfold end_parse end_parse_flush end_parse_pop
  simp [hst, hec]

theorem step_start_open (pol : Policy) (rest : List Nat) (s : JState)
    (h : s.nesting_depth + 1 < s.max_depth) (hec : s.ec = none) :
    step_start pol 91 rest s =
      { s with events := s.events ++ [json_event.begin_json, json_event.begin_array],
               nesting_depth := s.nesting_depth + 1,
               state_stack := parse_state.array :: s.state_stack,
               state := parse_state.expect_value_or_end,
               input := rest, column := s.column + 1 } := by
  unfold step_start do_begin_array push_state emit report
  rw [if_neg (by decide : ¬is_illegal_ctrl 91), if_neg (by decide : ¬(91 : Nat) = 13),
    if_neg (by decide : ¬(91 : Nat) = 10), if_neg (by decide : ¬((91 : Nat) = 32 ∨ (91 : Nat) = 9)),
    if_neg (by decide : ¬(91 : Nat) = 47), if_neg (by decide : ¬(91 : Nat) = 123),
    if_pos (rfl : (91 : Nat) = 91), if_neg (by omega : ¬s.nesting_depth + 1 ≥ s.max_depth)]
  simp [hec]

theorem step_start_open_err (rest : List Nat) (s : JState)
    (h : s.max_depth ≤ s.nesting_depth + 1) :
    step_start abort_all 91 rest s =
      { s with events := s.events ++ [json_event.begin_json],
               nesting_depth := s.nesting_depth + 1,
               ec := some json_parser_errc.max_depth_exceeded } := by
  unfold step_start do_begin_array push_state emit report abort_all
  rw [if_neg (by decide : ¬is_illegal_ctrl 91), if_neg (by decide : ¬(91 : Nat) = 13),
    if_neg (by decide : ¬(91 : Nat) = 10), if_neg (by decide : ¬((91 : Nat) = 32 ∨ (91 : Nat) = 9)),
    if_neg (by decide : ¬(91 : Nat) = 47), if_neg (by decide : ¬(91 : Nat) = 123),
    if_pos (rfl : (91 : Nat) = 91), if_pos (by omega : s.nesting_depth + 1 ≥ s.max_depth)]
  simp

theorem step_evoe_open (pol : Policy) (rest : List Nat) (s : JState)
    (h : s.nesting_depth + 1 < s.max_depth) (hec : s.ec = none) :
    step_expect_value_or_end pol 91 rest s =
      { s with events := s.events ++ [json_event.begin_array],
               nesting_depth := s.nesting_depth + 1,
               state_stack := parse_state.array :: s.state_stack,
               state := parse_state.expect_value_or_end,
               input := rest, column := s.column + 1 } := by
  unfold step_expect_value_or_end do_begin_array push_state emit report
  rw [if_neg (by decide : ¬is_illegal_ctrl 91), if_neg (by decide : ¬(91 : Nat) = 13),
    if_neg (by decide : ¬(91 : Nat) = 10), if_neg (by decide : ¬((91 : Nat) = 32 ∨ (91 : Nat) = 9)),
    if_neg (by decide : ¬(91 : Nat) = 47), if_neg (by decide : ¬(91 : Nat) = 123),
    if_pos (rfl : (91 : Nat) = 91), if_neg (by omega : ¬s.nesting_depth + 1 ≥ s.max_depth)]
  simp [hec]

theorem step_evoe_open_err (rest : List Nat) (s : JState)
    (h : s.max_depth ≤ s.nesting_depth + 1) :
    step_expect_value_or_end abort_all 91 rest s =
      { s with nesting_depth := s.nesting_depth + 1,
               ec := some json_parser_errc.max_depth_exceeded } := by
  unfold step_expect_value_or_end do_begin_array push_state emit report abort_all
  rw [if_neg (by decide : ¬is_illegal_ctrl 91), if_neg (by decide : ¬(91 : Nat) = 13),
    if_neg (by decide : ¬(91 : Nat) = 10), if_neg (by decide : ¬((91 : Nat) = 32 ∨ (91 : Nat) = 9)),
    if_neg (by decide : ¬(91 : Nat) = 47), if_neg (by decide : ¬(91 : Nat) = 123),
    if_pos (rfl : (91 : Nat) = 91), if_pos (by omega : s.nesting_depth + 1 ≥ s.max_depth)]
  simp

end jsoncons

namespace jsoncons

theorem step_evoe_close_done (pol : Policy) (rest : List Nat) (s : JState)
    (hstack : s.state_stack = [parse_state.array, parse_state.root])
    (hec : s.ec = none) :
    step_expect_value_or_end pol 93 rest s =
      { s with nesting_depth := s.nesting_depth - 1, state_stack := [parse_state.root],
               state := parse_state.done,
               events := s.events ++ [json_event.end_array, json_event.end_json],
               input := rest, column := s.column + 1 } := by
  unfold step_expect_value_or_end do_end_array pop_state emit parent fatal_error
  rw [hstack]
  simp [hec, is_illegal_ctrl]

theorem step_evoe_close_more (pol : Policy) (rest : List Nat) (s : JState)
    (t : List parse_state)
    (hstack : s.state_stack = parse_state.array :: parse_state.array :: t)
    (hec : s.ec = none) :
    step_expect_value_or_end pol 93 rest s =
      { s with nesting_depth := s.nesting_depth - 1,
               state_stack := parse_state.array :: t,
               state := parse_state.expect_comma_or_end,
               events := s.events ++ [json_event.end_array],
               input := rest, column := s.column + 1 } := by
  unfold step_expect_value_or_end do_end_array pop_state emit parent fatal_error
  rw [hstack]
  simp [hec, is_illegal_ctrl]

theorem step_ecoe_close_done (pol : Policy) (rest : List Nat) (s : JState)
    (hstack : s.state_stack = [parse_state.array, parse_state.root])
    (hec : s.ec = none) :
    step_expect_comma_or_end pol 93 rest s =
      { s with nesting_depth := s.nesting_depth - 1, state_stack := [parse_state.root],
               state := parse_state.done,
               events := s.events ++ [json_event.end_array, json_event.end_json],
               input := rest, column := s.column + 1 } := by
  unfold step_expect_comma_or_end do_end_array pop_state emit parent fatal_error
  rw [hstack]
  simp [hec, is_illegal_ctrl]

theorem step_ecoe_close_more (pol : Policy) (rest : List Nat) (s : JState)
    (t : List parse_state)
    (hstack : s.state_stack = parse_state.array :: parse_state.array :: t)
    (hec : s.ec = none) :
    step_expect_comma_or_end pol 93 rest s =
      { s with nesting_depth := s.nesting_depth - 1,
               state_stack := parse_state.array :: t,
               state := parse_state.expect_comma_or_end,
               events := s.events ++ [json_event.end_array],
               input := rest, column := s.column + 1 } := by
  unfold step_expect_comma_or_end do_end_array pop_state emit parent fatal_error
  rw [hstack]
  simp [hec, is_illegal_ctrl]

end jsoncons

namespace jsoncons

theorem replicate_append_cons {A : Type} (m : Nat) (a : A) (t : List A) :
    List.replicate m a ++ a :: t = a :: (List.replicate m a ++ t) := by
  induction m with
  | zero => rfl
  | succ k ih => simp only [List.replicate_succ, List.cons_append, ih]

theorem parse_opens (pol : Policy) (m : Nat) :
    ∀ (fuel : Nat) (s : JState) (tail : List Nat),
    s.state = parse_state.expect_value_or_end → s.ec = none →
    s.input = List.replicate m 91 ++ tail →
    s.nesting_depth + (m : Int) < s.max_depth →
    parse pol (fuel + m) s =
      parse pol fuel
        { s with nesting_depth := s.nesting_depth + (m : Int),
                 state_stack := List.replicate m parse_state.array ++ s.state_stack,
                 events := s.events ++ List.replicate m json_event.begin_array,
                 input := tail, column := s.column + m,
                 state := parse_state.expect_value_or_end } := by
  induction m with
  | zero =>
    intro fuel s tail hst hec hin hdep
    have : ({ s with
                nesting_depth := s.nesting_depth + ((0 : Nat) : Int),
                state_stack := List.replicate 0 parse_state.array ++ s.state_stack,
                events := s.events ++ List.replicate 0 json_event.begin_array,
                input := tail, column := s.column + 0,
                state := parse_state.expect_value_or_end } : JState) = s := by
      cases s
      simp_all
    rw [this, Nat.add_zero]
  | succ m ih =>
    intro fuel s tail hst hec hin hdep
    have hin' : s.input = 91 :: (List.replicate m 91 ++ tail) := by
      rw [hin, List.replicate_succ]
      rfl
    have hstep := step_evoe_open pol (List.replicate m 91 ++ tail) s
      (by push_cast at hdep ⊢; omega) hec
    have hsplit : fuel + (m + 1) = (fuel + m) + 1 := rfl
    rw [hsplit, parse]
    simp only [hst, hin', parse_one, hstep, hec, Option.isSome_none,
      Bool.false_eq_true, if_false]
    rw [ih (fuel) _ tail rfl (by simp [hec]) rfl (by push_cast at hdep ⊢; omega)]
    cases s
    simp_all [List.replicate_succ, List.append_assoc]
    congr 1
    simp only [JState.mk.injEq, replicate_append_cons, and_true, true_and,
      List.append_assoc, List.singleton_append]
    omega

end jsoncons

namespace jsoncons

theorem parse_start_open (pol : Policy) (fuel : Nat) (rest : List Nat) (s : JState)
    (hst : s.state = parse_state.start) (hec : s.ec = none)
    (hin : s.input = 91 :: rest) (hdep : s.nesting_depth + 1 < s.max_depth) :
    parse pol (fuel + 1) s =
      parse pol fuel
        { s with events := s.events ++ [json_event.begin_json, json_event.begin_array],
                 nesting_depth := s.nesting_depth + 1,
                 state_stack := parse_state.array :: s.state_stack,
                 state := parse_state.expect_value_or_end,
                 input := rest, column := s.column + 1 } := by
  have hstep := step_start_open pol rest s hdep hec
  rw [parse]
  simp only [hst, hin, parse_one, hstep, hec, Option.isSome_none,
    Bool.false_eq_true, if_false]
  simp

theorem parse_start_open_err (fuel : Nat) (rest : List Nat) (s : JState)
    (hst : s.state = parse_state.start)
    (hin : s.input = 91 :: rest) (hdep : s.max_depth ≤ s.nesting_depth + 1) :
    parse abort_all (fuel + 1) s =
      { s with events := s.events ++ [json_event.begin_json],
               nesting_depth := s.nesting_depth + 1,
               ec := some json_parser_errc.max_depth_exceeded } := by
  have hstep := step_start_open_err rest s hdep
  rw [parse]
  simp only [hst, hin, parse_one, hstep, Option.isSome_some, if_true]
  simp

theorem parse_evoe_open_err (fuel : Nat) (rest : List Nat) (s : JState)
    (hst : s.state = parse_state.expect_value_or_end)
    (hin : s.input = 91 :: rest) (hdep : s.max_depth ≤ s.nesting_depth + 1) :
    parse abort_all (fuel + 1) s =
      { s with nesting_depth := s.nesting_depth + 1,
               ec := some json_parser_errc.max_depth_exceeded } := by
  have hstep := step_evoe_open_err rest s hdep
  rw [parse]
  simp only [hst, hin, parse_one, hstep, Option.isSome_some, if_true]
  simp

theorem parse_closes (pol : Policy) (m : Nat) :
    ∀ (fuel : Nat) (s : JState),
    (s.state = parse_state.expect_value_or_end ∨
      s.state = parse_state.expect_comma_or_end) →
    s.ec = none →
    s.input = List.replicate (m + 1) 93 →
    s.state_stack = List.replicate (m + 1) parse_state.array ++ [parse_state.root] →
    parse pol (fuel + (m + 1)) s =
      parse pol fuel
        { s with nesting_depth := s.nesting_depth - ((m : Int) + 1),
                 state_stack := [parse_state.root],
                 state := parse_state.done,
                 events := s.events ++ List.replicate m json_event.end_array
                             ++ [json_event.end_array, json_event.end_json],
                 input := [], column := s.column + (m + 1) } := by
  induction m with
  | zero =>
    intro fuel s hst hec hin hstack
    have hin' : s.input = 93 :: ([] : List Nat) := by rw [hin]; rfl
    have hstack' : s.state_stack = [parse_state.array, parse_state.root] := by
      rw [hstack]; rfl
    rcases hst with hst | hst
    · have hstep := step_evoe_close_done pol [] s hstack' hec
      rw [show fuel + (0 + 1) = fuel + 1 from rfl, parse]
      simp only [hst, hin', parse_one, hstep, hec, Option.isSome_none,
        Bool.false_eq_true, if_false]
      cases s
      simp_all
    · have hstep := step_ecoe_close_done pol [] s hstack' hec
      rw [show fuel + (0 + 1) = fuel + 1 from rfl, parse]
      simp only [hst, hin', parse_one, hstep, hec, Option.isSome_none,
        Bool.false_eq_true, if_false]
      cases s
      simp_all
  | succ m ih =>
    intro fuel s hst hec hin hstack
    have hin' : s.input = 93 :: List.replicate (m + 1) 93 := by
      rw [hin, List.replicate_succ]
    have hstack' : s.state_stack =
        parse_state.array :: parse_state.array ::
          (List.replicate m parse_state.array ++ [parse_state.root]) := by
      rw [hstack]
      simp [List.replicate_succ]
    rcases hst with hst | hst
    · have hstep := step_evoe_close_more pol (List.replicate (m + 1) 93) s
        (List.replicate m parse_state.array ++ [parse_state.root]) hstack' hec
      rw [show fuel + (m + 1 + 1) = (fuel + (m + 1)) + 1 from rfl, parse]
      simp only [hst, hin', parse_one, hstep, hec, Option.isSome_none,
        Bool.false_eq_true, if_false]
      rw [ih fuel _ (Or.inr rfl) (by simp [hec]) rfl rfl]
      cases s
      simp_all [List.replicate_succ, List.append_assoc]
      congr 1
      simp only [JState.mk.injEq, and_true, true_and, List.append_assoc,
        List.singleton_append]
      omega
    · have hstep := step_ecoe_close_more pol (List.replicate (m + 1) 93) s
        (List.replicate m parse_state.array ++ [parse_state.root]) hstack' hec
      rw [show fuel + (m + 1 + 1) = (fuel + (m + 1)) + 1 from rfl, parse]
      simp only [hst, hin', parse_one, hstep, hec, Option.isSome_none,
        Bool.false_eq_true, if_false]
      rw [ih fuel _ (Or.inr rfl) (by simp [hec]) rfl rfl]
      cases s
      simp_all [List.replicate_succ, List.append_assoc]
      congr 1
      simp only [JState.mk.injEq, and_true, true_and, List.append_assoc,
        List.singleton_append]
      omega

end jsoncons

namespace jsoncons

theorem c6_run_le (N k : Nat) (hk : 1 ≤ k) (hN : N ≤ 2147483647) (hNk : N ≤ k) :
    (run_with_cap N abort_all (nested_brackets k)).ec
      = some json_parser_errc.max_depth_exceeded := by
  obtain ⟨k', rfl⟩ : ∃ k', k = k' + 1 := ⟨k - 1, by omega⟩
  simp only [run_with_cap, parse_all]
  rcases Nat.lt_or_ge N 2 with h2 | h2
  · -- cap 0 or 1: the very first '[' errors out
    have hF : 2 * (set_source (nested_brackets (k' + 1))
          (max_nesting_depth N init_state)).input.length + 4 = (4 * k' + 7) + 1 := by
      simp [set_source, nested_brackets]
      omega
    have hin0 : (set_source (nested_brackets (k' + 1))
          (max_nesting_depth N init_state)).input =
        91 :: (List.replicate k' 91 ++ List.replicate (k' + 1) 93) := by
      simp [set_source, nested_brackets, List.replicate_succ]
    have hdep0 : (set_source (nested_brackets (k' + 1))
          (max_nesting_depth N init_state)).max_depth ≤
        (set_source (nested_brackets (k' + 1))
          (max_nesting_depth N init_state)).nesting_depth + 1 := by
      simp [set_source, max_nesting_depth, init_state]
      omega
    rw [hF, parse_start_open_err (4 * k' + 7) _ _ rfl hin0 hdep0]
    simp
  · -- cap at least 2: one open succeeds, then N-2 more opens, then the error
    obtain ⟨n', rfl⟩ : ∃ n', N = n' + 2 := ⟨N - 2, by omega⟩
    obtain ⟨d, rfl⟩ : ∃ d, k' = n' + (d + 1) := ⟨k' - n' - 1, by omega⟩
    have hF : 2 * (set_source (nested_brackets (n' + (d + 1) + 1))
          (max_nesting_depth (n' + 2) init_state)).input.length + 4 =
        (((4 * (n' + (d + 1)) + 6 - n') + 1) + n') + 1 := by
      simp [set_source, nested_brackets]
      omega
    have hin0 : (set_source (nested_brackets (n' + (d + 1) + 1))
          (max_nesting_depth (n' + 2) init_state)).input =
        91 :: (List.replicate (n' + (d + 1)) 91 ++
          List.replicate (n' + (d + 1) + 1) 93) := by
      simp [set_source, nested_brackets, List.replicate_succ]
    have hdep0 : (set_source (nested_brackets (n' + (d + 1) + 1))
          (max_nesting_depth (n' + 2) init_state)).nesting_depth + 1 <
        (set_source (nested_brackets (n' + (d + 1) + 1))
          (max_nesting_depth (n' + 2) init_state)).max_depth := by
      simp [set_source, max_nesting_depth, init_state]
      omega
    rw [hF, parse_start_open abort_all (((4 * (n' + (d + 1)) + 6 - n') + 1) + n') _ _
      rfl rfl hin0 hdep0]
    rw [parse_opens abort_all n' ((4 * (n' + (d + 1)) + 6 - n') + 1) _
      (List.replicate (d + 1) 91 ++ List.replicate (n' + (d + 1) + 1) 93)
      rfl rfl
      (by simp [List.replicate_add, List.append_assoc])
      (by simp [set_source, max_nesting_depth, init_state]; omega)]
    rw [parse_evoe_open_err (4 * (n' + (d + 1)) + 6 - n')
      (List.replicate d 91 ++ List.replicate (n' + (d + 1) + 1) 93) _
      rfl
      (by simp [List.replicate_succ])
      (by simp [set_source, max_nesting_depth, init_state]; omega)]
    simp

end jsoncons

namespace jsoncons

theorem c6_run_lt (N k : Nat) (hk : 1 ≤ k) (hN : N ≤ 2147483647) (hkN : k < N) :
    (run_with_cap N abort_all (nested_brackets k)).ec = none := by
  obtain ⟨k', rfl⟩ : ∃ k', k = k' + 1 := ⟨k - 1, by omega⟩
  simp only [run_with_cap, parse_all]
  have hF : 2 * (set_source (nested_brackets (k' + 1))
        (max_nesting_depth N init_state)).input.length + 4 =
      (((2 * k' + 6) + (k' + 1)) + k') + 1 := by
    simp [set_source, nested_brackets]
    omega
  have hin0 : (set_source (nested_brackets (k' + 1))
        (max_nesting_depth N init_state)).input =
      91 :: (List.replicate k' 91 ++ List.replicate (k' + 1) 93) := by
    simp [set_source, nested_brackets, List.replicate_succ]
  have hdep0 : (set_source (nested_brackets (k' + 1))
        (max_nesting_depth N init_state)).nesting_depth + 1 <
      (set_source (nested_brackets (k' + 1))
        (max_nesting_depth N init_state)).max_depth := by
    simp [set_source, max_nesting_depth, init_state]
    omega
  rw [hF, parse_start_open abort_all (((2 * k' + 6) + (k' + 1)) + k') _ _
    rfl rfl hin0 hdep0]
  rw [parse_opens abort_all k' ((2 * k' + 6) + (k' + 1)) _
    (List.replicate (k' + 1) 93)
    rfl rfl rfl
    (by simp [set_source, max_nesting_depth, init_state]; omega)]
  rw [parse_closes abort_all k' (2 * k' + 6) _
    (Or.inl rfl) rfl rfl
    (by simp [set_source, max_nesting_depth, init_state, replicate_append_cons,
      List.replicate_succ])]
  rw [parse_done abort_all (2 * k' + 6) _ rfl]
  simp only [set_source, max_nesting_depth, init_state, Option.isSome_none,
    Bool.false_eq_true, if_false]
  rw [end_parse_of_done abort_all _ rfl rfl]

end jsoncons

namespace jsoncons

theorem do_begin_object_cap (s : JState) (hec : s.ec = none) :
    ((do_begin_object abort_all s).ec = some json_parser_errc.max_depth_exceeded
        ↔ s.max_depth ≤ s.nesting_depth + 1) ∧
    (s.nesting_depth + 1 < s.max_depth → (do_begin_object abort_all s).ec = none) := by
  simp only [do_begin_object, report, abort_all, emit, push_state]
  by_cases h : s.max_depth ≤ s.nesting_depth + 1
  · simp [h]
  · simp [h, hec]

theorem do_begin_array_cap (s : JState) (hec : s.ec = none) :
    ((do_begin_array abort_all s).ec = some json_parser_errc.max_depth_exceeded
        ↔ s.max_depth ≤ s.nesting_depth + 1) ∧
    (s.nesting_depth + 1 < s.max_depth → (do_begin_array abort_all s).ec = none) := by
  simp only [do_begin_array, report, abort_all, emit, push_state]
  by_cases h : s.max_depth ≤ s.nesting_depth + 1
  · simp [h]
  · simp [h, hec]

/-- Claim C6 (amended): both `do_begin_object` and `do_begin_array` test
`++nesting_depth_ >= max_depth_`, so under the aborting policy opening an
object or an array from any error-free state writes `max_depth_exceeded`
exactly when the incremented depth reaches or exceeds the cap, and writes no
error while it stays strictly below; end to end, with the cap set to `N`
(within the `int` clamp) the document of `k ≥ 1` nested arrays reports
`max_depth_exceeded` if and only if `N ≤ k` — so depth equal to the cap
already errors, while this family parses without error whenever `k` is
strictly below the cap. -/
theorem c6_amended_depth_cap (N k : Nat) (hk : 1 ≤ k) (hN : N ≤ 2147483647) :
    (∀ s : JState, s.ec = none →
      ((do_begin_object abort_all s).ec = some json_parser_errc.max_depth_exceeded
          ↔ s.max_depth ≤ s.nesting_depth + 1) ∧
      ((do_begin_array abort_all s).ec = some json_parser_errc.max_depth_exceeded
          ↔ s.max_depth ≤ s.nesting_depth + 1) ∧
      (s.nesting_depth + 1 < s.max_depth →
        (do_begin_object abort_all s).ec = none ∧
        (do_begin_array abort_all s).ec = none)) ∧
    ((run_with_cap N abort_all (nested_brackets k)).ec
        = some json_parser_errc.max_depth_exceeded ↔ N ≤ k) := by
  refine ⟨fun s hec => ⟨(do_begin_object_cap s hec).1, (do_begin_array_cap s hec).1,
    fun hlt => ⟨(do_begin_object_cap s hec).2 hlt,
      (do_begin_array_cap s hec).2 hlt⟩⟩, ?_, ?_⟩
  · intro h
    by_contra hnk
    rw [c6_run_lt N k hk hN (by omega)] at h
    exact Option.noConfusion h
  · intro h
    exact c6_run_le N k hk hN h

theorem c6_amended_depth_cap_witness :
    ((1 ≤ 3 ∧ (2 : Nat) ≤ 2147483647) ∧
      (((do_begin_object abort_all (max_nesting_depth 1 init_state)).ec
          = some json_parser_errc.max_depth_exceeded)
        ↔ (max_nesting_depth 1 init_state).max_depth
            ≤ (max_nesting_depth 1 init_state).nesting_depth + 1) ∧
      ((run_with_cap 2 abort_all (nested_brackets 3)).ec
          = some json_parser_errc.max_depth_exceeded ↔ 2 ≤ 3)) :=
  ⟨by decide,
    ((c6_amended_depth_cap 2 3 (by decide) (by decide)).1
      (max_nesting_depth 1 init_state) rfl).1,
    (c6_amended_depth_cap 2 3 (by decide) (by decide)).2⟩

end jsoncons
